import Mathlib

/-!
Verification development for the WalB block-level write-ahead-log driver
(`src/module/io.c`, `src/module/hashtbl.c`).

The I/O pipeline of `io.c` is embedded as a sequential transition system over
the stored lsid watermarks plus the list of created packs; the serial
single-runner stages of the driver (pack builder, wait-log, submit-data, GC)
become step constructors acting on stage counters.  Pure helper functions of
the driver (`should_stop_queue`, `hashtbl_add`, ...) are embedded directly as
Lean functions.  Helpers of the walb headers that are not part of `src/`
(`get_next_lsid`, `capacity_pb`, `walb_logpack_header_add_bio`) are
modelled from the spec and are marked as such in their doc comments.
-/

namespace Walb

/-- The lsid watermark set stored in `wdev->lsids` (`prev_written` is omitted:
no pipeline step of `io.c` reads or writes it). -/
structure LsidSet where
  latest : Nat
  flush : Nat
  completed : Nat
  permanent : Nat
  written : Nat
  oldest : Nat
deriving DecidableEq, Repr

/-- Per-device configuration, as read by the pipeline code of `io.c`.
`flushSupport` embeds `wdev->queue->flush_flags & REQ_FLUSH` (io.c:2176). -/
structure DevConfig where
  pbs : Nat
  ringBufferPb : Nat
  ringBufferOff : Nat
  maxLogpackPb : Nat
  maxRecords : Nat
  logFlushIntervalPb : Nat
  logFlushIntervalJiffies : Nat
  flushSupport : Bool
  isErrorBeforeOverflow : Bool
deriving DecidableEq, Repr

/-- Abstract data of one built pack, as the lsid-updating code of `io.c` sees
it: its `logpack_lsid`, its `total_io_size` in physical blocks, the number of
records, the `lsid_local` of its last record (0 when there is none), and the
two flush flags of `struct pack`. -/
structure PackInfo where
  lsid : Nat
  sizePb : Nat
  nRecords : Nat
  lastLsidLocal : Nat
  isFlushHeader : Bool
  isFlushContained : Bool
deriving DecidableEq, Repr

/-- Modelled from the spec: `get_next_lsid` of the walb headers
(not under `src/`).  A logpack occupies one header block plus
`total_io_size` payload blocks of the ring; a zero-flush-only pack
(`n_records == 0`) writes nothing to the ring and so consumes no lsid. -/
def PackInfo.nextLsid (p : PackInfo) : Nat :=
  if p.nRecords = 0 then p.lsid else p.lsid + 1 + p.sizePb

/-- Well-formedness of a pack leaving the builder (cf. `is_prepared_pack_valid`):
a pack with no records is a zero-flush-only pack (no payload, and it contains
a flush request, io.c:1897); records have `lsid_local ≥ 1` because slot 0 of a
logpack is its header block. -/
def WFPack (p : PackInfo) : Prop :=
  (p.nRecords = 0 → p.sizePb = 0 ∧ p.lastLsidLocal = 0 ∧ p.isFlushContained = true) ∧
  (p.nRecords ≠ 0 → 1 ≤ p.lastLsidLocal)

instance (p : PackInfo) : Decidable (WFPack p) := by
  unfold WFPack; infer_instance

/-- State of the sequential pipeline model: the stored watermarks, the packs in
creation order, and the frontiers of the serial stages: `nLog` packs have had
their log completion processed (`wait_for_logpack_and_submit_datapack`),
`nData` packs have passed the data-submission stage (and thus the permanence
gate), `nGc` packs have been garbage-collected (`gc_logpack_list`). -/
structure PipeState where
  lsids : LsidSet
  packs : List PackInfo
  nLog : Nat
  nData : Nat
  nGc : Nat
deriving DecidableEq, Repr

/-- The lsid boundary before pack `j`: the `logpack_lsid` of pack `j`, or
`latest` past the end of the created packs. -/
def bnd (s : PipeState) (j : Nat) : Nat :=
  match s.packs[j]? with
  | some p => p.lsid
  | none => s.lsids.latest

/-- The lsid boundary after pack `j` (its `get_next_lsid`), or `latest`
past the end. -/
def bndN (s : PipeState) (j : Nat) : Nat :=
  match s.packs[j]? with
  | some p => p.nextLsid
  | none => s.lsids.latest

/-- `get_next_lsid` of the most recently created pack, or `latest` when
no pack exists. -/
def lastBnd (s : PipeState) : Nat :=
  match s.packs.getLast? with
  | some p => p.nextLsid
  | none => s.lsids.latest

/-- `is_flush_contained` of pack `i` (false past the end). -/
def fcAt (s : PipeState) (i : Nat) : Bool :=
  ((s.packs[i]?).map PackInfo.isFlushContained).getD false

/-- The lsid updates of `wait_for_logpack_and_submit_datapack`
(io.c:2039-2052 and io.c:2163-2186, non-failure path) for the pack whose log
completed: the flush-header update of `permanent`, then
`completed := get_next_lsid(logh)`, the flush-contained update of `permanent`,
and, for a device whose queue does not support flush, the unconditional
reassignment `flush := get_next_lsid(logh); permanent := flush`. -/
def completeLogEffect (cfg : DevConfig) (p : PackInfo) (ls : LsidSet) : LsidSet :=
  let ls1 := if p.isFlushHeader = true ∧ ls.permanent < p.lsid then
    { ls with permanent := p.lsid } else ls
  let ls2 := { ls1 with completed := p.nextLsid }
  let ls3 := if p.isFlushContained = true ∧ ls2.permanent < p.lsid then
    { ls2 with permanent := p.lsid } else ls2
  if cfg.flushSupport = true then ls3
  else { ls3 with flush := p.nextLsid, permanent := p.nextLsid }

/-- The forced-flush effect of `wait_for_log_permanent` (io.c:2618-2647):
promote `flush` to `latest` (guarded), issue the LDEV flush, promote
`permanent` to the same `latest` (guarded). -/
def gateForceLsids (ls : LsidSet) : LsidSet :=
  { ls with
    flush := if ls.flush < ls.latest then ls.latest else ls.flush,
    permanent := if ls.permanent < ls.latest then ls.latest else ls.permanent }

/-- State after `create_logpack_list` stored the lsids of a finalized pack
(io.c:1054-1064): append the pack, `latest := get_next_lsid`,
`flush := flushLsid` when it grows (guard io.c:1059). -/
def createEffect (s : PipeState) (p : PackInfo) (flushLsid : Nat) : PipeState :=
  { s with
    packs := s.packs ++ [p],
    lsids := { s.lsids with
      latest := p.nextLsid,
      flush := if s.lsids.flush < flushLsid then flushLsid else s.lsids.flush } }

/-- State after log completion of the next pack in the wait-log queue. -/
def completeLogState (cfg : DevConfig) (s : PipeState) (p : PackInfo) : PipeState :=
  { s with lsids := completeLogEffect cfg p s.lsids, nLog := s.nLog + 1 }

/-- State after the data stage passed one pack without forcing a flush. -/
def dataPassState (s : PipeState) : PipeState :=
  { s with nData := s.nData + 1 }

/-- State after the data stage passed one pack through the forced-flush path
of the permanence gate. -/
def dataForceState (s : PipeState) : PipeState :=
  { s with nData := s.nData + 1, lsids := gateForceLsids s.lsids }

/-- State after `gc_logpack_list` collected the next pack:
`written := get_next_lsid(pack)` (io.c:1544-1555). -/
def gcState (s : PipeState) (p : PackInfo) : PipeState :=
  { s with nGc := s.nGc + 1, lsids := { s.lsids with written := p.nextLsid } }

/-- One step of the I/O pipeline (non-failure paths).  Pack creation follows
`create_logpack_list` (store-lsids part, io.c:1054-1064), decomposed per
created pack; log completion follows `wait_for_logpack_and_submit_datapack`;
data submission runs the permanence gate `wait_for_log_permanent` before
entering the data stage (`task_submit_bio_wrapper_list`, io.c:806-808); GC
follows `gc_logpack_list` (io.c:1544-1555). -/
inductive Step (cfg : DevConfig) : PipeState → PipeState → Prop
  /-- `create_logpack_list` finalizes a pack at the current `latest`
  (`flushLsid` comes from flush requests in the pack or the flush trigger,
  always at most the new `latest`). -/
  | create (p : PackInfo) (flushLsid : Nat)
      (hlsid : p.lsid = s.lsids.latest)
      (hwf : WFPack p)
      (hflush : flushLsid ≤ p.nextLsid)
      (hnoerr : ¬(cfg.isErrorBeforeOverflow = true ∧
        cfg.ringBufferPb < p.nextLsid - s.lsids.oldest)) :
      Step cfg s (createEffect s p flushLsid)
  /-- log completion of the next pack in the wait-log queue. -/
  | completeLog (p : PackInfo)
      (hp : s.packs[s.nLog]? = some p) :
      Step cfg s (completeLogState cfg s p)
  /-- a zero-flush-only pack contributes no bio wrapper to the data stage. -/
  | dataSkip (p : PackInfo)
      (hp : s.packs[s.nData]? = some p) (hlog : s.nData < s.nLog)
      (hz : p.nRecords = 0) :
      Step cfg s (dataPassState s)
  /-- data submission when the permanence gate returns without forcing:
  either the gate is disabled (`log_flush_interval_jiffies == 0`) or the
  lsid of the last wrapper is already below `permanent` (io.c:2599). -/
  | dataFast (p : PackInfo)
      (hp : s.packs[s.nData]? = some p) (hlog : s.nData < s.nLog)
      (hz : p.nRecords ≠ 0)
      (hgate : cfg.logFlushIntervalJiffies = 0 ∨
        p.lsid + p.lastLsidLocal < s.lsids.permanent) :
      Step cfg s (dataPassState s)
  /-- data submission through the forced-flush path of the gate. -/
  | dataForce (p : PackInfo)
      (hp : s.packs[s.nData]? = some p) (hlog : s.nData < s.nLog)
      (hz : p.nRecords ≠ 0)
      (hgate : cfg.logFlushIntervalJiffies ≠ 0)
      (hng : ¬(p.lsid + p.lastLsidLocal < s.lsids.permanent)) :
      Step cfg s (dataForceState s)
  /-- GC of the next fully completed pack advances
  `written := get_next_lsid(pack)`. -/
  | gc (p : PackInfo)
      (hp : s.packs[s.nGc]? = some p) (hdata : s.nGc < s.nData) :
      Step cfg s (gcState s p)

/-- Reachability in the pipeline model. -/
def Reachable (cfg : DevConfig) : PipeState → PipeState → Prop :=
  Relation.ReflTransGen (Step cfg)

/-- `permanent` always holds a pack-boundary value (or `latest`). -/
def permIsBnd (s : PipeState) : Prop :=
  ∃ j, j < s.packs.length + 1 ∧ s.lsids.permanent = bnd s j

instance (s : PipeState) : Decidable (permIsBnd s) :=
  decidable_of_iff
    ((List.range (s.packs.length + 1)).any fun j => s.lsids.permanent == bnd s j) (by
      simp [permIsBnd, List.any_eq_true, List.mem_range])

/-- Structural linkage of the created packs: consecutive packs have
consecutive lsid ranges, and `latest` is the boundary after the last pack. -/
def Linked (s : PipeState) : Prop :=
  (∀ i, i < s.packs.length → i + 1 < s.packs.length →
    (s.packs[i+1]?).map PackInfo.lsid = (s.packs[i]?).map PackInfo.nextLsid) ∧
  s.lsids.latest = lastBnd s

instance (s : PipeState) : Decidable (Linked s) := by
  unfold Linked; infer_instance

/-- Inductive invariant of the pipeline model. -/
def Inv (cfg : DevConfig) (s : PipeState) : Prop :=
  s.nGc ≤ s.nData ∧ s.nData ≤ s.nLog ∧ s.nLog ≤ s.packs.length ∧
  Linked s ∧
  (∀ p ∈ s.packs, WFPack p) ∧
  permIsBnd s ∧
  (cfg.logFlushIntervalJiffies ≠ 0 → ∀ i, i < s.nData → bndN s i ≤ s.lsids.permanent) ∧
  (∀ i, i < s.nLog → fcAt s i = true → bnd s i ≤ s.lsids.permanent) ∧
  s.lsids.completed ≤ bnd s s.nLog ∧
  (0 < s.nLog → s.lsids.completed = bndN s (s.nLog - 1)) ∧
  s.lsids.written ≤ bnd s s.nGc ∧
  s.lsids.oldest ≤ s.lsids.written ∧
  s.lsids.written ≤ s.lsids.completed ∧
  (cfg.logFlushIntervalJiffies ≠ 0 → s.lsids.written ≤ s.lsids.permanent) ∧
  s.lsids.permanent ≤ s.lsids.latest ∧
  s.lsids.completed ≤ s.lsids.latest ∧
  s.lsids.flush ≤ s.lsids.latest

instance (cfg : DevConfig) (s : PipeState) : Decidable (Inv cfg s) := by
  unfold Inv; infer_instance

/-- The watermark chain as established by the pipeline (the amended form:
the permanence gate may promote `permanent` past `completed`, so only
`permanent ≤ latest` is kept on that side). -/
def Chain (ls : LsidSet) : Prop :=
  ls.oldest ≤ ls.written ∧ ls.written ≤ ls.permanent ∧ ls.written ≤ ls.completed ∧
  ls.permanent ≤ ls.latest ∧ ls.completed ≤ ls.latest ∧ ls.flush ≤ ls.latest

/-- Initial pipeline state: all watermarks at `l`, nothing created. -/
def initState (l : Nat) : PipeState :=
  { lsids := { latest := l, flush := l, completed := l, permanent := l,
               written := l, oldest := l },
    packs := [], nLog := 0, nData := 0, nGc := 0 }

/-- A concrete flush-capable configuration, used by the C1 witness. -/
def cfgFlushCapable : DevConfig :=
  { pbs := 512, ringBufferPb := 1000, ringBufferOff := 2, maxLogpackPb := 0,
    maxRecords := 10, logFlushIntervalPb := 8, logFlushIntervalJiffies := 100,
    flushSupport := true, isErrorBeforeOverflow := false }

/-- Configuration for the C1 counterexample: the LDEV queue does not support
flush (io.c:2176), the gate is active. -/
def cfgNoFlush : DevConfig :=
  { pbs := 512, ringBufferPb := 1000, ringBufferOff := 2, maxLogpackPb := 0,
    maxRecords := 10, logFlushIntervalPb := 0, logFlushIntervalJiffies := 100,
    flushSupport := false, isErrorBeforeOverflow := false }

/-- First created pack of the counterexample trace. -/
def packA : PackInfo :=
  { lsid := 0, sizePb := 1, nRecords := 1, lastLsidLocal := 1,
    isFlushHeader := false, isFlushContained := false }

/-- Second created pack; it contains a flush request whose record lsid 3
becomes the stored `flush` (io.c:1897-1904, io.c:1059). -/
def packB : PackInfo :=
  { lsid := 2, sizePb := 1, nRecords := 1, lastLsidLocal := 1,
    isFlushHeader := false, isFlushContained := true }

/-- The reachable state with two created packs and `flush = 3`. -/
def stateCE : PipeState := createEffect (createEffect (initState 0) packA 0) packB 3

/-- State read and written by `wait_for_log_permanent`: the watermark set,
`iocored->log_flush_jiffies`, the read-only flag and whether the LDEV flush
request was issued. -/
structure GateSt where
  lsids : LsidSet
  logFlushJiffies : Nat
  readOnly : Bool
  flushIssued : Bool
deriving DecidableEq, Repr

/-- The forced-flush tail of `wait_for_log_permanent` (io.c:2618-2650):
promote `flush` to `latest` (guarded, rearming `log_flush_jiffies`), issue
the unconditional LDEV flush (`flushErr` is its result; an error turns the
device read-only, io.c:2630-2633), then promote `permanent` to the same
`latest` (guarded). -/
def gateForce (cfg : DevConfig) (flushErr : Bool) (now : Nat) (g : GateSt) : GateSt :=
  let g1 := if g.lsids.flush < g.lsids.latest then
    { g with lsids := { g.lsids with flush := g.lsids.latest },
             logFlushJiffies := now + cfg.logFlushIntervalJiffies }
    else g
  let g2 := { g1 with flushIssued := true,
                      readOnly := if flushErr = true then true else g1.readOnly }
  if g2.lsids.permanent < g2.lsids.latest then
    { g2 with lsids := { g2.lsids with permanent := g2.lsids.latest } }
  else g2

/-- The retry loop of `wait_for_log_permanent` (io.c:2592-2610): return as
soon as `lsid < permanent`; while the timeout has not expired, the lsid is
within the configured flush distance of `flush`, and the periodic flush
deadline is still in the future, sleep one millisecond (`now + 1`) and
retry; otherwise force a flush.  `fuel` bounds the recursion; the wrapper
passes the exact distance to the timeout. -/
def gateLoop (cfg : DevConfig) (flushErr : Bool) (timeout lsid : Nat) :
    Nat → Nat → GateSt → GateSt
  | 0, now, g =>
    if lsid < g.lsids.permanent then g else gateForce cfg flushErr now g
  | fuel + 1, now, g =>
    if lsid < g.lsids.permanent then g
    else if now < timeout ∧ lsid < g.lsids.flush + cfg.logFlushIntervalPb ∧
        now < g.logFlushJiffies then
      gateLoop cfg flushErr timeout lsid fuel (now + 1) g
    else gateForce cfg flushErr now g

/-- `wait_for_log_permanent` (io.c:2579-2651), sequential embedding (the rest
of the device is quiescent; time advances by the 1 ms sleeps of the retry
loop).  A no-op when `log_flush_interval_jiffies == 0` (io.c:2587). -/
def wait_for_log_permanent (cfg : DevConfig) (flushErr : Bool) (now : Nat)
    (g : GateSt) (lsid : Nat) : GateSt :=
  if cfg.logFlushIntervalJiffies = 0 then g
  else gateLoop cfg flushErr (now + cfg.logFlushIntervalJiffies) lsid
    cfg.logFlushIntervalJiffies now g

/-- A write bio wrapper as the pack builder sees it: position and length in
logical blocks, the REQ_FLUSH and REQ_DISCARD bits of `bio->bi_rw`, and the
assigned lsid. -/
structure BioW where
  pos : Nat
  len : Nat
  isFlush : Bool
  isDiscard : Bool
  lsid : Nat
deriving DecidableEq, Repr

/-- A log record of a logpack header (`struct walb_log_record`). -/
structure LogRecord where
  isPadding : Bool
  isDiscard : Bool
  offset : Nat
  ioSize : Nat
  lsidLocal : Nat
deriving DecidableEq, Repr

/-- A logpack header (`struct walb_logpack_header`): its lsid, records,
`total_io_size` (in physical blocks) and `n_padding`. -/
structure LogpackHeader where
  logpackLsid : Nat
  records : List LogRecord
  totalIoSize : Nat
  nPadding : Nat
deriving DecidableEq, Repr

/-- Modelled from the spec: `capacity_pb(pbs, len_lb)` of the walb headers
(not under `src/`): the number of physical blocks needed for `len_lb`
logical (512-byte) blocks, rounding up. -/
def capacity_pb (pbs len_lb : Nat) : Nat :=
  (len_lb + pbs / 512 - 1) / (pbs / 512)

/-- `is_pack_size_too_large` (io.c:500-517): true when adding the bio would
push `total_io_size` past `max_logpack_pb`; no limit when `max_logpack_pb`
is 0. -/
def is_pack_size_too_large (lhead : LogpackHeader) (pbs maxLogpackPb : Nat)
    (biow : BioW) : Bool :=
  if maxLogpackPb = 0 then false
  else decide (capacity_pb pbs biow.len + lhead.totalIoSize > maxLogpackPb)

/-- `get_next_lsid` on a header (see `PackInfo.nextLsid`). -/
def get_next_lsid (lh : LogpackHeader) : Nat :=
  if lh.records.length = 0 then lh.logpackLsid
  else lh.logpackLsid + 1 + lh.totalIoSize

/-- Modelled from the spec: `walb_logpack_header_add_bio` (logpack.c of walb
is not under `src/`).  A zero-length flush produces no record.  Otherwise the
write needs `capacity_pb` payload blocks; if its payload would straddle the
ring-buffer end, a padding record filling the ring tail is inserted first (a
discard carries no payload and needs no padding).  Each record occupies one
slot of the header; the function fails exactly when the needed slots exceed
the record capacity of the header. -/
def walb_logpack_header_add_bio (lh : LogpackHeader) (biow : BioW)
    (pbs ringSize maxRecords : Nat) : Option LogpackHeader :=
  if biow.len = 0 then some lh
  else
    let pb := capacity_pb pbs biow.len
    let curOff := (lh.logpackLsid + 1 + lh.totalIoSize) % ringSize
    let needPad := !biow.isDiscard && decide (curOff + pb > ringSize)
    let slots := if needPad then 2 else 1
    if lh.records.length + slots > maxRecords then none
    else
      let padPb := ringSize - curOff
      let padRec : LogRecord :=
        { isPadding := true, isDiscard := false, offset := 0,
          ioSize := padPb * (pbs / 512), lsidLocal := lh.totalIoSize + 1 }
      let recs1 := if needPad then lh.records ++ [padRec] else lh.records
      let tio1 := if needPad then lh.totalIoSize + padPb else lh.totalIoSize
      let newRec : LogRecord :=
        { isPadding := false, isDiscard := biow.isDiscard,
          offset := biow.pos, ioSize := biow.len, lsidLocal := tio1 + 1 }
      let lhOut : LogpackHeader :=
        { lh with
          records := recs1 ++ [newRec],
          totalIoSize := if biow.isDiscard then tio1 else tio1 + pb,
          nPadding := if needPad then lh.nPadding + 1 else lh.nPadding }
      some lhOut

/-- In-memory write pack (`struct pack`, io.c:35-56) with its header. -/
structure WPack where
  lhead : LogpackHeader
  biows : List BioW
  isZeroFlushOnly : Bool
  isFlushContained : Bool
  isFlushHeader : Bool
deriving DecidableEq, Repr

/-- `create_writepack` (io.c:412-436): a fresh pack at the given lsid. -/
def create_writepack (logpackLsid : Nat) : WPack :=
  { lhead := { logpackLsid := logpackLsid, records := [], totalIoSize := 0,
               nPadding := 0 },
    biows := [], isZeroFlushOnly := false, isFlushContained := false,
    isFlushHeader := false }

/-- `is_zero_flush_only` (io.c:467-492): no records but a non-empty wrapper
list. -/
def is_zero_flush_only (pk : WPack) : Bool :=
  decide (pk.lhead.records.length = 0) && !pk.biows.isEmpty

/-- `writepack_check_and_set_flush` (io.c:1983-1993). -/
def writepack_check_and_set_flush (pk : WPack) : WPack :=
  if pk.lhead.records.length = 0 then { pk with isZeroFlushOnly := true } else pk

/-- Builder state threaded through `writepack_add_bio_wrapper`: sealed packs,
the open pack, and the local `latest_lsid`, `flush_lsid`,
`log_flush_jiffies` of `create_logpack_list`. -/
structure BuilderSt where
  wpackList : List WPack
  wpack : Option WPack
  latestLsid : Nat
  flushLsid : Nat
  logFlushJiffies : Nat
deriving DecidableEq, Repr

/-- Sealing of the open pack (io.c:1875-1881): set `is_zero_flush_only` if
needed, append it to the list, advance the local latest lsid. -/
def sealPack (st : BuilderSt) (pk : WPack) : BuilderSt :=
  let pk2 := writepack_check_and_set_flush pk
  { st with wpackList := st.wpackList ++ [pk2],
            latestLsid := get_next_lsid pk2.lhead }

/-- lsid assignment (io.c:1867-1872 and io.c:1888-1893): the wrapper takes
the lsid of the last record of the header when one exists. -/
def assignLsid (pk : WPack) (biow : BioW) : BioW :=
  match pk.lhead.records.getLast? with
  | some r => { biow with lsid := pk.lhead.logpackLsid + r.lsidLocal }
  | none => biow

/-- The `fin` tail of `writepack_add_bio_wrapper` (io.c:1894-1915): append
the wrapper to the pack; a flush request marks `is_flush_contained` and
updates the local `flush_lsid` and `log_flush_jiffies`. -/
def packAddFin (cfg : DevConfig) (now : Nat) (st : BuilderSt) (pk : WPack)
    (biow : BioW) : BuilderSt :=
  let biow2 := assignLsid pk biow
  let pk2 := { pk with biows := pk.biows ++ [biow2] }
  if biow2.isFlush then
    let pk3 := { pk2 with isFlushContained := true }
    let fl := if pk3.lhead.records.length > 0 && !biow2.isDiscard then biow2.lsid
      else st.latestLsid
    { st with wpack := some pk3, flushLsid := fl,
              logFlushJiffies := now + cfg.logFlushIntervalJiffies }
  else { st with wpack := some pk2 }

/-- The `newpack` path of `writepack_add_bio_wrapper` (io.c:1875-1893): seal
the current pack when one exists, create a fresh writepack at the local
latest lsid, add the bio to its header (cannot fail on a fresh header, cf.
the ASSERT at io.c:1887), then run the `fin` tail. -/
def newpackPath (cfg : DevConfig) (now : Nat) (st : BuilderSt)
    (old : Option WPack) (biow : BioW) : BuilderSt :=
  let st2 := match old with
    | some pk => sealPack st pk
    | none => st
  let fresh := create_writepack st2.latestLsid
  let lh := (walb_logpack_header_add_bio fresh.lhead biow cfg.pbs
    cfg.ringBufferPb cfg.maxRecords).getD fresh.lhead
  packAddFin cfg now st2 { fresh with lhead := lh } biow

/-- `writepack_add_bio_wrapper` (io.c:1819-1919), with the caller's
allocation-retry loop folded away (allocation always succeeds). -/
def writepack_add_bio_wrapper (cfg : DevConfig) (now : Nat) (st : BuilderSt)
    (biow : BioW) : BuilderSt :=
  match st.wpack with
  | none => newpackPath cfg now st none biow
  | some pk =>
    if is_zero_flush_only pk then newpackPath cfg now st (some pk) biow
    else if pk.lhead.records.length > 0 &&
        (biow.isFlush || is_pack_size_too_large pk.lhead cfg.pbs
          cfg.maxLogpackPb biow) then
      newpackPath cfg now st (some pk) biow
    else
      match walb_logpack_header_add_bio pk.lhead biow cfg.pbs cfg.ringBufferPb
        cfg.maxRecords with
      | none => newpackPath cfg now st (some pk) biow
      | some lh => packAddFin cfg now st { pk with lhead := lh } biow

/-- A bio wrapper with its assigned lsid erased, for statements that compare
wrapper multisets before and after lsid assignment. -/
def eraseLsid (b : BioW) : BioW := { b with lsid := 0 }

/-- All bio wrappers held by a builder state (sealed packs, then the open
pack). -/
def builderBiows (st : BuilderSt) : List BioW :=
  (st.wpackList.map WPack.biows).flatten ++
    (match st.wpack with
     | some pk => pk.biows
     | none => [])

/-- The builder state after packing a wrapper list (the loop of
io.c:991-1005). -/
def builderAfter (cfg : DevConfig) (now : Nat) (ls : LsidSet)
    (logFlushJiffies : Nat) (biows : List BioW) : BuilderSt :=
  biows.foldl (writepack_add_bio_wrapper cfg now)
    { wpackList := [], wpack := none, latestLsid := ls.latest,
      flushLsid := ls.flush, logFlushJiffies := logFlushJiffies }

/-- Outcome of `create_logpack_list`: success flag, stored lsids,
`log_flush_jiffies`, the LOG_OVERFLOW flag, the built packs, and the
wrappers failed with -EIO. -/
structure CreateOut where
  ok : Bool
  lsids : LsidSet
  logFlushJiffies : Nat
  overflow : Bool
  wpacks : List WPack
  failed : List BioW
deriving DecidableEq, Repr

/-- `create_logpack_list` (io.c:962-1090), non-allocation-failure run: build
packs from the wrappers, finalize the last pack and apply the flush trigger
(io.c:1006-1028), then either fail the whole batch
(`is_error_before_overflow` and the batch would overflow the ring,
io.c:1036-1052) or store the lsids (io.c:1054-1064) and run the overflow
check (io.c:1066-1075). -/
def create_logpack_list (cfg : DevConfig) (now : Nat) (ls : LsidSet)
    (logFlushJiffies : Nat) (overflow : Bool) (biows : List BioW) : CreateOut :=
  let b1 := builderAfter cfg now ls logFlushJiffies biows
  match b1.wpack with
  | none =>
    { ok := true, lsids := ls, logFlushJiffies := logFlushJiffies,
      overflow := overflow, wpacks := [], failed := [] }
  | some pk =>
    let pk1 := writepack_check_and_set_flush pk
    let latest1 := get_next_lsid pk1.lhead
    let isFlushSize := decide (cfg.logFlushIntervalPb > 0) &&
      decide (latest1 - b1.flushLsid > cfg.logFlushIntervalPb)
    let isFlushPeriod := decide (cfg.logFlushIntervalJiffies > 0) &&
      decide (b1.logFlushJiffies < now)
    let pk2 := if isFlushSize || isFlushPeriod then
      { pk1 with isFlushHeader := true } else pk1
    let flushLsid1 := if isFlushSize || isFlushPeriod then
      pk1.lhead.logpackLsid else b1.flushLsid
    let wpacks := b1.wpackList ++ [pk2]
    if cfg.isErrorBeforeOverflow && decide (cfg.ringBufferPb < latest1 - ls.oldest) then
      { ok := false, lsids := ls, logFlushJiffies := logFlushJiffies,
        overflow := overflow, wpacks := [],
        failed := (wpacks.map WPack.biows).flatten }
    else
      let flush1 := if ls.flush < flushLsid1 then flushLsid1 else ls.flush
      let lfj1 := if ls.flush < flushLsid1 then
        now + cfg.logFlushIntervalJiffies else logFlushJiffies
      let lsOut : LsidSet := { ls with latest := latest1, flush := flush1 }
      { ok := true, lsids := lsOut, logFlushJiffies := lfj1,
        overflow := overflow || decide (latest1 - ls.oldest > cfg.ringBufferPb),
        wpacks := wpacks, failed := [] }

/-- One request issued to the log device by the log submitter. -/
inductive LdevOp
  | flushReq
  | headerWrite (posPb : Nat) (withFlush : Bool)
  | payloadWrite (posPb : Nat) (sizePb : Nat)
deriving DecidableEq, Repr

/-- `logpack_submit_header` (io.c:1271-1335): the header block goes to
`off_pb = logpack_lsid % ring_buffer_size + ring_buffer_off` (io.c:1305). -/
def logpack_submit_header (lh : LogpackHeader) (isFlush : Bool)
    (ringOff ringSize : Nat) : LdevOp :=
  LdevOp.headerWrite (lh.logpackLsid % ringSize + ringOff) isFlush

/-- `logpack_submit_bio_wrapper` (io.c:1378-1413): the payload goes to
`ldev_off_pb = lsid % ring_buffer_size + ring_buffer_off` (io.c:1385). -/
def logpack_submit_bio_wrapper (lsid pbs ringOff ringSize ioSizeLb : Nat) : LdevOp :=
  LdevOp.payloadWrite (lsid % ringSize + ringOff) (capacity_pb pbs ioSizeLb)

/-- One iteration of the payload loop of `submit_logpack` (io.c:1217-1256):
a DISCARD record issues nothing, a zero-length wrapper issues a flush clone
(`logpack_submit_bio_wrapper_zero`), otherwise the payload write at the
record's lsid. -/
def payloadFor (logpackLsid pbs ringOff ringSize : Nat) (r : LogRecord)
    (b : BioW) : List LdevOp :=
  if r.isDiscard then []
  else if b.len = 0 then [LdevOp.flushReq]
  else [logpack_submit_bio_wrapper (logpackLsid + r.lsidLocal) pbs ringOff
    ringSize r.ioSize]

/-- The payload loop of `submit_logpack` (io.c:1217-1256): walk the wrappers,
skipping one padding record when it precedes the wrapper's record. -/
def submit_logpack_payloads (logpackLsid pbs ringOff ringSize : Nat) :
    List LogRecord → List BioW → List LdevOp
  | r :: recs, b :: bs =>
    if r.isPadding then
      match recs with
      | r2 :: recs2 =>
        payloadFor logpackLsid pbs ringOff ringSize r2 b ++
          submit_logpack_payloads logpackLsid pbs ringOff ringSize recs2 bs
      | [] => []
    else
      payloadFor logpackLsid pbs ringOff ringSize r b ++
        submit_logpack_payloads logpackLsid pbs ringOff ringSize recs bs
  | _, _ => []

/-- `submit_logpack` (io.c:1199-1257): the header block, then the payloads. -/
def submit_logpack (lh : LogpackHeader) (biows : List BioW)
    (isFlushHeader : Bool) (pbs ringOff ringSize : Nat) : List LdevOp :=
  logpack_submit_header lh isFlushHeader ringOff ringSize ::
    submit_logpack_payloads lh.logpackLsid pbs ringOff ringSize lh.records biows

/-- `submit_logpack_list` (io.c:1095-1129): a zero-flush-only pack issues a
bare LDEV flush (`logpack_submit_flush`); any other pack submits its header
and payloads. -/
def submit_logpack_list (pbs ringOff ringSize : Nat)
    (wpacks : List WPack) : List LdevOp :=
  (wpacks.map (fun pk =>
    if pk.isZeroFlushOnly then [LdevOp.flushReq]
    else submit_logpack pk.lhead pk.biows pk.isFlushHeader pbs ringOff
      ringSize)).flatten

/-- Correspondence between the records of a non-zero-flush logpack header and
its wrapper list, as built by the pack builder: each wrapper owns one
non-padding record (possibly preceded by one padding record), with matching
discard bit and size. -/
inductive RecsMatch : List LogRecord → List BioW → Prop
  | nil : RecsMatch [] []
  | cons (r : LogRecord) (b : BioW) {recs : List LogRecord} {bs : List BioW}
      (hpad : r.isPadding = false) (hdis : r.isDiscard = b.isDiscard)
      (hsize : r.ioSize = b.len) (hnz : b.len ≠ 0) :
      RecsMatch recs bs → RecsMatch (r :: recs) (b :: bs)
  | pad (rp r : LogRecord) (b : BioW) {recs : List LogRecord} {bs : List BioW}
      (hp : rp.isPadding = true) (hpad : r.isPadding = false)
      (hdis : r.isDiscard = b.isDiscard) (hsize : r.ioSize = b.len)
      (hnz : b.len ≠ 0) :
      RecsMatch recs bs → RecsMatch (rp :: r :: recs) (b :: bs)

/-- The lsid updates and wrapper routing of
`wait_for_logpack_and_submit_datapack` (io.c:2018-2187, non-failure path):
the flush-header `permanent` update, per-wrapper completion (zero-length
flushes complete with status 0 and are destroyed; others complete with 0 and
are queued for the data stage), then the `completed`/`permanent` update and
the flush-incapable compensation.  Returns the new lsids, the `bio_endio`
calls, and the wrappers enqueued to the datapack submit queue. -/
def wait_for_logpack_and_submit_datapack (cfg : DevConfig) (ls : LsidSet)
    (pk : WPack) : LsidSet × List (BioW × Int) × List BioW :=
  let ls1 := if pk.isFlushHeader = true ∧ ls.permanent < pk.lhead.logpackLsid then
    { ls with permanent := pk.lhead.logpackLsid } else ls
  let step := fun (acc : List (BioW × Int) × List BioW) (b : BioW) =>
    if b.len = 0 then (acc.1 ++ [(b, 0)], acc.2)
    else (acc.1 ++ [(b, 0)], acc.2 ++ [b])
  let cd := pk.biows.foldl step ([], [])
  let ls2 := { ls1 with completed := get_next_lsid pk.lhead }
  let ls3 := if pk.isFlushContained = true ∧ ls2.permanent < pk.lhead.logpackLsid then
    { ls2 with permanent := pk.lhead.logpackLsid } else ls2
  let ls4 := if cfg.flushSupport = true then ls3
    else { ls3 with flush := get_next_lsid pk.lhead,
                    permanent := get_next_lsid pk.lhead }
  (ls4, cd.1, cd.2)

/-- Throttling configuration (`max_pending_sectors`, `min_pending_sectors`,
`queue_stop_timeout_jiffies` of `struct walb_dev`). -/
structure ThrottleCfg where
  maxPendingSectors : Nat
  minPendingSectors : Nat
  queueStopTimeoutJiffies : Nat
deriving DecidableEq, Repr

/-- Throttling state (`pending_sectors`, `is_under_throttling`,
`queue_restart_jiffies` of `struct iocore_data`). -/
structure ThrottleSt where
  pendingSectors : Nat
  isUnderThrottling : Bool
  queueRestartJiffies : Nat
deriving DecidableEq, Repr

/-- `should_stop_queue` (io.c:2732-2758): no further freeze while already
throttled; otherwise stop when `pending_sectors + biow->len` exceeds
`max_pending_sectors`, arming the restart deadline. -/
def should_stop_queue (tcfg : ThrottleCfg) (now : Nat) (st : ThrottleSt)
    (biowLen : Nat) : Bool × ThrottleSt :=
  if st.isUnderThrottling then (false, st)
  else if st.pendingSectors + biowLen > tcfg.maxPendingSectors then
    (true, { st with queueRestartJiffies := now + tcfg.queueStopTimeoutJiffies,
                     isUnderThrottling := true })
  else (false, st)

/-- `should_start_queue` (io.c:2767-2798): only while throttled; restart when
the pending amount after removing this wrapper drops below
`min_pending_sectors`, or the restart deadline has passed. -/
def should_start_queue (tcfg : ThrottleCfg) (now : Nat) (st : ThrottleSt)
    (biowLen : Nat) : Bool × ThrottleSt :=
  if !st.isUnderThrottling then (false, st)
  else
    let isSize := if st.pendingSectors ≥ biowLen then
      decide (st.pendingSectors - biowLen < tcfg.minPendingSectors) else true
    let isTimeout := decide (st.queueRestartJiffies < now)
    if isSize || isTimeout then (true, { st with isUnderThrottling := false })
    else (false, st)

/-- `invoke_userland_exec` (io.c:2676-2708): nothing happens when the
configured path is empty or not shorter than the buffer
(`strnlen` check, io.c:2687-2688); otherwise the helper is executed with
argv `[exec_path, major, minor, event]` (io.c:2684, io.c:2696-2698). -/
def invoke_userland_exec (maxLen : Nat) (execPath : String) (major minor : Nat)
    (event : String) : Option (List String) :=
  let len := min execPath.length maxLen
  if len = 0 ∨ len = maxLen then none
  else some [execPath, toString major, toString minor, event]

/-- The overflow check of `create_logpack_list` (io.c:1066-1075): on
`latest - oldest > ring_buffer_size`, set LOG_OVERFLOW and, only when the
bit was previously clear (`test_and_set_bit` returned 0), invoke the
userland helper with the event string "overflow". -/
def check_overflow_and_invoke (cfg : DevConfig) (maxLen : Nat)
    (execPath : String) (major minor latest oldest : Nat)
    (overflowFlag : Bool) : Bool × Option (List String) :=
  if latest - oldest > cfg.ringBufferPb then
    if overflowFlag then (true, none)
    else (true, invoke_userland_exec maxLen execPath major minor "overflow")
  else (overflowFlag, none)

/-- Modelled from the spec: `HASHTBL_INVALID_VAL` of hashtbl.h (not under
`src/`) is the reserved invalid value `(unsigned long)(-1)`. -/
def HASHTBL_INVALID_VAL : Nat := 2 ^ 64 - 1

/-- A hash cell (`struct hash_cell`): the key bytes (`key`/`key_size` pair
embedded as the byte list) and the value. -/
structure hash_cell where
  key : List Nat
  val : Nat

/-- A hash table (`struct hash_tbl`): the bucket array and the bucket index
function (`hashtbl_get_index`, i.e. `hash_32` of `get_sum`, kept abstract). -/
structure hash_tbl where
  bucket_size : Nat
  idx : List Nat → Nat
  bucket : Nat → List hash_cell

/-- `hashtbl_lookup_cell` (hashtbl.c:87-111): scan the bucket of the key for
a cell with equal key size and bytes. -/
def hashtbl_lookup_cell (t : hash_tbl) (key : List Nat) : Option hash_cell :=
  (t.bucket (t.idx key)).find? (fun c => c.key == key)

/-- `hashtbl_lookup` (hashtbl.c:517-523). -/
def hashtbl_lookup (t : hash_tbl) (key : List Nat) : Nat :=
  match hashtbl_lookup_cell t key with
  | some c => c.val
  | none => HASHTBL_INVALID_VAL

/-- `hashtbl_add` (hashtbl.c:467-506).  The C key pointer and `key_size` pair
is embedded as `Option (List Nat)` whose list holds exactly `key_size`
bytes; `allocFail` is the outcome of `alloc_hash_cell`.  On success the new
cell goes to the head of its bucket (`hlist_add_head`). -/
def hashtbl_add (t : hash_tbl) (keyPtr : Option (List Nat)) (val : Nat)
    (allocFail : Bool) : Int × hash_tbl :=
  match keyPtr with
  | none => (-22, t)
  | some key =>
    if key.length = 0 ∨ val = HASHTBL_INVALID_VAL then (-22, t)
    else if (hashtbl_lookup_cell t key).isSome then (-1, t)
    else if allocFail then (-12, t)
    else
      let cell : hash_cell := { key := key, val := val }
      let bucket2 := fun i =>
        if i = t.idx key then cell :: t.bucket i else t.bucket i
      (0, { t with bucket := bucket2 })

/-- A raw bio as `iocore_log_make_request` sees it. -/
structure Bio where
  isWrite : Bool
  pos : Nat
  len : Nat
deriving DecidableEq, Repr

/-- What `iocore_log_make_request` does with a bio. -/
inductive LogDevAction
  | endio (err : Int)
  | forwardToLdev (b : Bio)
deriving DecidableEq, Repr

/-- `iocore_log_make_request` (io.c:3107-3115): a write bio is completed at
once with -EIO; a read bio is redirected to the underlying log device and
re-submitted unchanged.  The device lsid state is passed through to show it
is untouched. -/
def iocore_log_make_request (ls : LsidSet) (b : Bio) : LsidSet × LogDevAction :=
  if b.isWrite then (ls, LogDevAction.endio (-5))
  else (ls, LogDevAction.forwardToLdev b)

/-- Concrete open pack for the C3 witness: one record, one wrapper. -/
def wpackW : WPack :=
  { lhead := { logpackLsid := 5,
               records := [{ isPadding := false, isDiscard := false,
                             offset := 0, ioSize := 8, lsidLocal := 1 }],
               totalIoSize := 8, nPadding := 0 },
    biows := [{ pos := 0, len := 8, isFlush := false, isDiscard := false,
                lsid := 6 }],
    isZeroFlushOnly := false, isFlushContained := false,
    isFlushHeader := false }

/-- Concrete builder state for the C3 witness. -/
def stW : BuilderSt :=
  { wpackList := [], wpack := some wpackW, latestLsid := 5, flushLsid := 0,
    logFlushJiffies := 0 }

/-- Concrete flush write for the C3 witness. -/
def biowW : BioW :=
  { pos := 8, len := 8, isFlush := true, isDiscard := false, lsid := 0 }

/-- Configuration for the C4 counterexample: `is_error_before_overflow` set,
a tiny ring of 3 physical blocks. -/
def cfgErr : DevConfig :=
  { pbs := 512, ringBufferPb := 3, ringBufferOff := 2, maxLogpackPb := 0,
    maxRecords := 10, logFlushIntervalPb := 0, logFlushIntervalJiffies := 0,
    flushSupport := true, isErrorBeforeOverflow := true }

/-- All-zero watermark set. -/
def lsZero : LsidSet :=
  { latest := 0, flush := 0, completed := 0, permanent := 0, written := 0,
    oldest := 0 }

/-- A 4-sector write: one pack holding it needs `next_lsid = 7 > 3` ring
blocks, triggering the overflow error path of `create_logpack_list`. -/
def bioBig : BioW :=
  { pos := 0, len := 4, isFlush := false, isDiscard := false, lsid := 0 }

/-- The open pack that `builderAfter cfgErr 0 lsZero 0 [bioBig]` produces
(payload straddles the ring end, so a 2-block padding record precedes it). -/
def pkErr : WPack :=
  { lhead := { logpackLsid := 0,
               records := [{ isPadding := true, isDiscard := false,
                             offset := 0, ioSize := 2, lsidLocal := 1 },
                           { isPadding := false, isDiscard := false,
                             offset := 0, ioSize := 4, lsidLocal := 3 }],
               totalIoSize := 6, nPadding := 1 },
    biows := [{ pos := 0, len := 4, isFlush := false, isDiscard := false,
                lsid := 3 }],
    isZeroFlushOnly := false, isFlushContained := false,
    isFlushHeader := false }

/-- Concrete zero-length flush wrapper (C5 witness). -/
def bioZF : BioW :=
  { pos := 0, len := 0, isFlush := true, isDiscard := false, lsid := 0 }

/-- Concrete zero-flush-only pack holding `bioZF` (C5 witness). -/
def pkZF : WPack :=
  { lhead := { logpackLsid := 4, records := [], totalIoSize := 0,
               nPadding := 0 },
    biows := [bioZF], isZeroFlushOnly := true, isFlushContained := true,
    isFlushHeader := false }

/-- Concrete throttling configuration (C6 witness). -/
def tcfgW : ThrottleCfg :=
  { maxPendingSectors := 64, minPendingSectors := 16,
    queueStopTimeoutJiffies := 100 }

/-- Concrete throttling state, not yet throttled (C6 witness). -/
def tstW : ThrottleSt :=
  { pendingSectors := 60, isUnderThrottling := false,
    queueRestartJiffies := 0 }

/-- Concrete non-zero-flush pack with one record (C7 witness). -/
def pkC7 : WPack :=
  { lhead := { logpackLsid := 7,
               records := [{ isPadding := false, isDiscard := false,
                             offset := 0, ioSize := 8, lsidLocal := 1 }],
               totalIoSize := 8, nPadding := 0 },
    biows := [{ pos := 0, len := 8, isFlush := false, isDiscard := false,
                lsid := 8 }],
    isZeroFlushOnly := false, isFlushContained := false,
    isFlushHeader := false }

/-- Concrete empty 4-bucket hash table whose index function sends every key
to bucket 0 (C9 witness). -/
def tblW : hash_tbl :=
  { bucket_size := 4, idx := fun _ => 0, bucket := fun _ => [] }

theorem nextLsid_ge (p : PackInfo) : p.lsid ≤ p.nextLsid := by
  unfold PackInfo.nextLsid; split <;> omega

theorem bnd_of_get {s : PipeState} {j : Nat} {p : PackInfo}
    (hp : s.packs[j]? = some p) : bnd s j = p.lsid := by
  unfold bnd; rw [hp]

theorem bndN_of_get {s : PipeState} {j : Nat} {p : PackInfo}
    (hp : s.packs[j]? = some p) : bndN s j = p.nextLsid := by
  unfold bndN; rw [hp]

theorem bnd_of_none {s : PipeState} {j : Nat} (h : s.packs.length ≤ j) :
    bnd s j = s.lsids.latest := by
  unfold bnd; rw [List.getElem?_eq_none h]

theorem bndN_of_none {s : PipeState} {j : Nat} (h : s.packs.length ≤ j) :
    bndN s j = s.lsids.latest := by
  unfold bndN; rw [List.getElem?_eq_none h]

theorem get_of_lt {s : PipeState} {j : Nat} (h : j < s.packs.length) :
    ∃ p, s.packs[j]? = some p := by
  cases hq : s.packs[j]? with
  | some p => exact ⟨p, rfl⟩
  | none => exact absurd (List.getElem?_eq_none_iff.mp hq) (by omega)

/-- The boundary after pack `j` equals the boundary before pack `j + 1`. -/
theorem bnd_succ {s : PipeState} (hL : Linked s) (j : Nat) :
    bnd s (j + 1) = bndN s j := by
  obtain ⟨hcons, hlast⟩ := hL
  cases h1 : s.packs[j+1]? with
  | some q =>
    have hj1 : j + 1 < s.packs.length := (List.getElem?_eq_some.mp h1).1
    obtain ⟨p, h0⟩ := get_of_lt (s := s) (j := j) (by omega)
    have heq := hcons j (by omega) hj1
    rw [h1, h0] at heq
    simp only [Option.map_some'] at heq
    rw [bnd_of_get h1, bndN_of_get h0]
    exact Option.some_injective _ heq
  | none =>
    have hlen : s.packs.length ≤ j + 1 := List.getElem?_eq_none_iff.mp h1
    rw [bnd_of_none hlen]
    rcases Nat.lt_or_ge j s.packs.length with hj | hj
    · have hlenj : s.packs.length = j + 1 := by omega
      obtain ⟨p, h0⟩ := get_of_lt (s := s) (j := j) hj
      rw [bndN_of_get h0]
      have hget : s.packs.getLast? = some p := by
        rw [List.getLast?_eq_getElem?, hlenj]
        simpa using h0
      unfold lastBnd at hlast
      rw [hget] at hlast
      exact hlast
    · rw [bndN_of_none hj]

theorem bnd_le_succ {s : PipeState} (hL : Linked s) (j : Nat) :
    bnd s j ≤ bnd s (j + 1) := by
  rw [bnd_succ hL]
  cases h : s.packs[j]? with
  | some p => rw [bnd_of_get h, bndN_of_get h]; exact nextLsid_ge p
  | none =>
    have := List.getElem?_eq_none_iff.mp h
    rw [bnd_of_none this, bndN_of_none this]

theorem bnd_mono {s : PipeState} (hL : Linked s) {j k : Nat} (h : j ≤ k) :
    bnd s j ≤ bnd s k := by
  induction k, h using Nat.le_induction with
  | base => exact le_refl _
  | succ k _ ih => exact ih.trans (bnd_le_succ hL k)

theorem bnd_le_latest {s : PipeState} (hL : Linked s) (j : Nat) :
    bnd s j ≤ s.lsids.latest := by
  rcases Nat.lt_or_ge j s.packs.length with hj | hj
  · have := bnd_mono hL (Nat.le_of_lt hj)
    rwa [bnd_of_none (le_refl _)] at this
  · rw [bnd_of_none hj]

theorem bndN_le_latest {s : PipeState} (hL : Linked s) (j : Nat) :
    bndN s j ≤ s.lsids.latest := by
  rw [← bnd_succ hL]; exact bnd_le_latest hL (j + 1)

/-- `bnd` depends only on the pack list and `latest`. -/
theorem bnd_eq_of {s' s : PipeState} (h1 : s'.packs = s.packs)
    (h2 : s'.lsids.latest = s.lsids.latest) (j : Nat) : bnd s' j = bnd s j := by
  unfold bnd; rw [h1, h2]

theorem bndN_eq_of {s' s : PipeState} (h1 : s'.packs = s.packs)
    (h2 : s'.lsids.latest = s.lsids.latest) (j : Nat) : bndN s' j = bndN s j := by
  unfold bndN; rw [h1, h2]

theorem fcAt_eq_of {s' s : PipeState} (h1 : s'.packs = s.packs) (i : Nat) :
    fcAt s' i = fcAt s i := by
  unfold fcAt; rw [h1]

theorem linked_eq_of {s' s : PipeState} (h1 : s'.packs = s.packs)
    (h2 : s'.lsids.latest = s.lsids.latest) (hL : Linked s) : Linked s' := by
  obtain ⟨hcons, hlast⟩ := hL
  constructor
  · intro i hi hi1; rw [h1] at hi hi1 ⊢; exact hcons i hi hi1
  · unfold lastBnd; rw [h1, h2]; exact hlast

theorem createEffect_get_lt {s : PipeState} {p : PackInfo} {fl j : Nat}
    (hj : j < s.packs.length) : (createEffect s p fl).packs[j]? = s.packs[j]? := by
  show (s.packs ++ [p])[j]? = s.packs[j]?
  rw [List.getElem?_append]
  simp [hj]

theorem createEffect_get_len {s : PipeState} {p : PackInfo} {fl : Nat} :
    (createEffect s p fl).packs[s.packs.length]? = some p :=
  List.getElem?_concat_length s.packs p

theorem bnd_createEffect {s : PipeState} {p : PackInfo} {fl : Nat}
    (hlsid : p.lsid = s.lsids.latest) {j : Nat} (hj : j ≤ s.packs.length) :
    bnd (createEffect s p fl) j = bnd s j := by
  rcases Nat.lt_or_ge j s.packs.length with hj' | hj'
  · obtain ⟨q, hq⟩ := get_of_lt (s := s) (j := j) hj'
    rw [bnd_of_get (show (createEffect s p fl).packs[j]? = some q by
      rw [createEffect_get_lt hj']; exact hq), bnd_of_get hq]
  · have hje : j = s.packs.length := by omega
    subst hje
    rw [bnd_of_get createEffect_get_len, bnd_of_none (le_refl _), hlsid]

theorem bndN_createEffect {s : PipeState} {p : PackInfo} {fl : Nat}
    {j : Nat} (hj : j < s.packs.length) :
    bndN (createEffect s p fl) j = bndN s j := by
  obtain ⟨q, hq⟩ := get_of_lt (s := s) (j := j) hj
  rw [bndN_of_get (show (createEffect s p fl).packs[j]? = some q by
    rw [createEffect_get_lt hj]; exact hq), bndN_of_get hq]

theorem fcAt_createEffect {s : PipeState} {p : PackInfo} {fl : Nat}
    {i : Nat} (hi : i < s.packs.length) :
    fcAt (createEffect s p fl) i = fcAt s i := by
  unfold fcAt; rw [createEffect_get_lt hi]

theorem linked_createEffect {s : PipeState} {p : PackInfo} {fl : Nat}
    (hL : Linked s) (hlsid : p.lsid = s.lsids.latest) :
    Linked (createEffect s p fl) := by
  obtain ⟨hcons, hlast⟩ := hL
  have hlen : (createEffect s p fl).packs.length = s.packs.length + 1 := by
    show (s.packs ++ [p]).length = _
    simp
  constructor
  · intro i hi hi1
    rw [hlen] at hi hi1
    rcases Nat.lt_or_ge (i + 1) s.packs.length with h1 | h1
    · rw [createEffect_get_lt h1, createEffect_get_lt (by omega)]
      exact hcons i (by omega) h1
    · have hie : i + 1 = s.packs.length := by omega
      have hip : (createEffect s p fl).packs[i+1]? = some p := by
        rw [hie]; exact createEffect_get_len
      rw [hip, createEffect_get_lt (by omega)]
      obtain ⟨q, h0⟩ := get_of_lt (s := s) (j := i) (by omega)
      have hget : s.packs.getLast? = some q := by
        rw [List.getLast?_eq_getElem?]
        have : s.packs.length - 1 = i := by omega
        rw [this]; exact h0
      unfold lastBnd at hlast
      rw [hget] at hlast
      rw [h0]
      simp only [Option.map_some']
      rw [hlsid, hlast]
  · show (createEffect s p fl).lsids.latest = lastBnd (createEffect s p fl)
    unfold lastBnd
    have : (createEffect s p fl).packs.getLast? = some p := by
      show (s.packs ++ [p]).getLast? = some p
      exact List.getLast?_concat s.packs
    rw [this]
    rfl

theorem completeLogEffect_latest (cfg : DevConfig) (p : PackInfo) (ls : LsidSet) :
    (completeLogEffect cfg p ls).latest = ls.latest := by
  simp only [completeLogEffect]; split_ifs <;> rfl

theorem completeLogEffect_written (cfg : DevConfig) (p : PackInfo) (ls : LsidSet) :
    (completeLogEffect cfg p ls).written = ls.written := by
  simp only [completeLogEffect]; split_ifs <;> rfl

theorem completeLogEffect_oldest (cfg : DevConfig) (p : PackInfo) (ls : LsidSet) :
    (completeLogEffect cfg p ls).oldest = ls.oldest := by
  simp only [completeLogEffect]; split_ifs <;> rfl

theorem completeLogEffect_completed (cfg : DevConfig) (p : PackInfo) (ls : LsidSet) :
    (completeLogEffect cfg p ls).completed = p.nextLsid := by
  simp only [completeLogEffect]; split_ifs <;> rfl

theorem completeLogEffect_flush (cfg : DevConfig) (p : PackInfo) (ls : LsidSet) :
    (completeLogEffect cfg p ls).flush =
      if cfg.flushSupport = true then ls.flush else p.nextLsid := by
  simp only [completeLogEffect]; split_ifs <;> rfl

theorem completeLogEffect_permanent_sup (cfg : DevConfig) (p : PackInfo) (ls : LsidSet)
    (h : cfg.flushSupport = true) :
    ls.permanent ≤ (completeLogEffect cfg p ls).permanent ∧
      ((completeLogEffect cfg p ls).permanent = ls.permanent ∨
        (completeLogEffect cfg p ls).permanent = p.lsid) := by
  simp only [completeLogEffect]
  split_ifs <;> simp_all <;> omega

theorem completeLogEffect_permanent_unsup (cfg : DevConfig) (p : PackInfo) (ls : LsidSet)
    (h : cfg.flushSupport = false) :
    (completeLogEffect cfg p ls).permanent = p.nextLsid := by
  simp only [completeLogEffect]
  split_ifs <;> simp_all

theorem completeLogEffect_permanent_fc (cfg : DevConfig) (p : PackInfo) (ls : LsidSet)
    (hfc : p.isFlushContained = true) :
    p.lsid ≤ (completeLogEffect cfg p ls).permanent := by
  have hn := nextLsid_ge p
  simp only [completeLogEffect]
  split_ifs <;> simp_all

theorem fcAt_of_get {s : PipeState} {i : Nat} {p : PackInfo}
    (hp : s.packs[i]? = some p) : fcAt s i = p.isFlushContained := by
  unfold fcAt; rw [hp]; rfl

theorem inv_create {cfg : DevConfig} {s : PipeState} {p : PackInfo} {fl : Nat}
    (hInv : Inv cfg s) (hlsid : p.lsid = s.lsids.latest) (hwf : WFPack p)
    (hflush : fl ≤ p.nextLsid) :
    Inv cfg (createEffect s p fl) := by
  obtain ⟨h1, h2, h3, hL, hWF, hPB, hDP, hFC, hC1, hC2, hW1, hOW, hWC, hWP, hPL,
    hCL, hFL⟩ := hInv
  have hlatle : s.lsids.latest ≤ p.nextLsid := hlsid ▸ nextLsid_ge p
  have hlen' : (createEffect s p fl).packs.length = s.packs.length + 1 := by
    show (s.packs ++ [p]).length = _; simp
  refine ⟨h1, h2, ?_, linked_createEffect hL hlsid, ?_, ?_, ?_, ?_, ?_, ?_, ?_,
    hOW, hWC, hWP, ?_, ?_, ?_⟩
  · show s.nLog ≤ (createEffect s p fl).packs.length
    rw [hlen']; omega
  · intro q hq
    rcases List.mem_append.mp hq with h | h
    · exact hWF q h
    · rw [List.mem_singleton] at h; subst h; exact hwf
  · obtain ⟨j, hj, hpj⟩ := hPB
    refine ⟨j, by rw [hlen']; omega, ?_⟩
    show s.lsids.permanent = bnd (createEffect s p fl) j
    rw [bnd_createEffect hlsid (by omega)]
    exact hpj
  · intro hiv i hi
    have hi' : i < s.nData := hi
    have : i < s.packs.length := by omega
    show bndN (createEffect s p fl) i ≤ s.lsids.permanent
    rw [bndN_createEffect this]
    exact hDP hiv i hi'
  · intro i hi hf
    have hi' : i < s.nLog := hi
    have hilen : i < s.packs.length := by omega
    show bnd (createEffect s p fl) i ≤ s.lsids.permanent
    rw [bnd_createEffect hlsid (by omega)]
    refine hFC i hi' ?_
    rw [← @fcAt_createEffect s p fl i hilen]
    exact hf
  · show s.lsids.completed ≤ bnd (createEffect s p fl) s.nLog
    rw [bnd_createEffect hlsid h3]
    exact hC1
  · intro h
    have h' : 0 < s.nLog := h
    have := hC2 h'
    show s.lsids.completed = bndN (createEffect s p fl) (s.nLog - 1)
    rw [bndN_createEffect (by omega)]
    exact this
  · show s.lsids.written ≤ bnd (createEffect s p fl) s.nGc
    rw [bnd_createEffect hlsid (by omega)]
    exact hW1
  · exact hPL.trans hlatle
  · exact hCL.trans hlatle
  · show (if s.lsids.flush < fl then fl else s.lsids.flush) ≤ p.nextLsid
    split_ifs
    · exact hflush
    · exact hFL.trans hlatle

theorem inv_completeLog {cfg : DevConfig} {s : PipeState} {p : PackInfo}
    (hInv : Inv cfg s) (hp : s.packs[s.nLog]? = some p) :
    Inv cfg (completeLogState cfg s p) := by
  obtain ⟨h1, h2, h3, hL, hWF, hPB, hDP, hFC, hC1, hC2, hW1, hOW, hWC, hWP, hPL,
    hCL, hFL⟩ := hInv
  have hnl : s.nLog < s.packs.length := (List.getElem?_eq_some.mp hp).1
  have hpk : (completeLogState cfg s p).packs = s.packs := rfl
  have hlat : (completeLogState cfg s p).lsids.latest = s.lsids.latest :=
    completeLogEffect_latest cfg p s.lsids
  have hbnd : ∀ j, bnd (completeLogState cfg s p) j = bnd s j := bnd_eq_of hpk hlat
  have hbndN : ∀ j, bndN (completeLogState cfg s p) j = bndN s j := bndN_eq_of hpk hlat
  have hwr : (completeLogState cfg s p).lsids.written = s.lsids.written :=
    completeLogEffect_written cfg p s.lsids
  have hol : (completeLogState cfg s p).lsids.oldest = s.lsids.oldest :=
    completeLogEffect_oldest cfg p s.lsids
  have hco : (completeLogState cfg s p).lsids.completed = p.nextLsid :=
    completeLogEffect_completed cfg p s.lsids
  have hwfp : WFPack p := hWF p (List.getElem?_mem hp)
  have hwcnext : s.lsids.written ≤ p.nextLsid := by
    have := hC1.trans_eq (bnd_of_get hp)
    have := nextLsid_ge p
    omega
  have hnextlat : p.nextLsid ≤ s.lsids.latest := by
    have := bndN_le_latest hL s.nLog
    rwa [bndN_of_get hp] at this
  have hlsidlat : p.lsid ≤ s.lsids.latest := (nextLsid_ge p).trans hnextlat
  cases hsup : cfg.flushSupport with
  | true =>
    obtain ⟨hple0, hpcases0⟩ := completeLogEffect_permanent_sup cfg p s.lsids hsup
    have hple : s.lsids.permanent ≤ (completeLogState cfg s p).lsids.permanent := hple0
    have hpcases : (completeLogState cfg s p).lsids.permanent = s.lsids.permanent ∨
        (completeLogState cfg s p).lsids.permanent = p.lsid := hpcases0
    have hfl : (completeLogState cfg s p).lsids.flush = s.lsids.flush := by
      show (completeLogEffect cfg p s.lsids).flush = _
      rw [completeLogEffect_flush, if_pos hsup]
    refine ⟨h1, h2.trans (Nat.le_succ _), by show s.nLog + 1 ≤ s.packs.length; omega,
      linked_eq_of hpk hlat hL, hWF, ?_, ?_, ?_, ?_, ?_, ?_, ?_, ?_, ?_, ?_, ?_, ?_⟩
    · rcases hpcases with he | he
      · obtain ⟨j, hj, hpj⟩ := hPB
        exact ⟨j, hj, by rw [hbnd j, he]; exact hpj⟩
      · exact ⟨s.nLog, by show s.nLog < s.packs.length + 1; omega,
          by rw [hbnd, he, bnd_of_get hp]⟩
    · intro hiv i hi
      rw [hbndN i]
      exact (hDP hiv i hi).trans hple
    · intro i hi hf
      rw [hbnd i]
      rw [fcAt_eq_of hpk i] at hf
      rcases Nat.lt_or_ge i s.nLog with hi' | hi'
      · exact (hFC i hi' hf).trans hple
      · have hie : i = s.nLog := by
          have : i < s.nLog + 1 := hi
          omega
        subst hie
        rw [fcAt_of_get hp] at hf
        rw [bnd_of_get hp]
        exact completeLogEffect_permanent_fc cfg p s.lsids hf
    · rw [hco, hbnd]
      show p.nextLsid ≤ bnd s (s.nLog + 1)
      rw [bnd_succ hL, bndN_of_get hp]
    · intro _
      rw [hco, hbndN]
      show p.nextLsid = bndN s (s.nLog + 1 - 1)
      rw [Nat.add_sub_cancel, bndN_of_get hp]
    · rw [hwr, hbnd]; exact hW1
    · rw [hwr, hol]; exact hOW
    · rw [hwr, hco]; exact hwcnext
    · intro hiv
      rw [hwr]
      exact (hWP hiv).trans hple
    · rw [hlat]
      rcases hpcases with he | he
      · rw [he]; exact hPL
      · rw [he]; exact hlsidlat
    · rw [hlat, hco]; exact hnextlat
    · rw [hlat, hfl]; exact hFL
  | false =>
    have hpe : (completeLogState cfg s p).lsids.permanent = p.nextLsid :=
      completeLogEffect_permanent_unsup cfg p s.lsids hsup
    have hfl : (completeLogState cfg s p).lsids.flush = p.nextLsid := by
      show (completeLogEffect cfg p s.lsids).flush = _
      rw [completeLogEffect_flush, if_neg (by rw [hsup]; exact Bool.false_ne_true)]
    refine ⟨h1, h2.trans (Nat.le_succ _), by show s.nLog + 1 ≤ s.packs.length; omega,
      linked_eq_of hpk hlat hL, hWF, ?_, ?_, ?_, ?_, ?_, ?_, ?_, ?_, ?_, ?_, ?_, ?_⟩
    · refine ⟨s.nLog + 1, by show s.nLog + 1 < s.packs.length + 1; omega, ?_⟩
      rw [hbnd, hpe]
      show p.nextLsid = bnd s (s.nLog + 1)
      rw [bnd_succ hL, bndN_of_get hp]
    · intro hiv i hi
      have hi' : i < s.nData := hi
      rw [hbndN i, hpe]
      have : bndN s i = bnd s (i + 1) := (bnd_succ hL i).symm
      rw [this]
      have hmono := bnd_mono hL (show i + 1 ≤ s.nLog + 1 by omega)
      rw [bnd_succ hL s.nLog, bndN_of_get hp] at hmono
      exact hmono
    · intro i hi hf
      rw [hbnd i, hpe]
      rcases Nat.lt_or_ge i s.nLog with hi' | hi'
      · have hmono := bnd_mono hL (show i ≤ s.nLog + 1 by omega)
        rw [bnd_succ hL s.nLog, bndN_of_get hp] at hmono
        exact hmono
      · have hie : i = s.nLog := by
          have : i < s.nLog + 1 := hi
          omega
        subst hie
        rw [bnd_of_get hp]
        exact nextLsid_ge p
    · rw [hco, hbnd]
      show p.nextLsid ≤ bnd s (s.nLog + 1)
      rw [bnd_succ hL, bndN_of_get hp]
    · intro _
      rw [hco, hbndN]
      show p.nextLsid = bndN s (s.nLog + 1 - 1)
      rw [Nat.add_sub_cancel, bndN_of_get hp]
    · rw [hwr, hbnd]; exact hW1
    · rw [hwr, hol]; exact hOW
    · rw [hwr, hco]; exact hwcnext
    · intro _
      rw [hwr, hpe]
      exact hwcnext
    · rw [hlat, hpe]; exact hnextlat
    · rw [hlat, hco]; exact hnextlat
    · rw [hlat, hfl]; exact hnextlat

theorem inv_dataSkip {cfg : DevConfig} {s : PipeState} {p : PackInfo}
    (hInv : Inv cfg s) (hp : s.packs[s.nData]? = some p)
    (hlog : s.nData < s.nLog) (hz : p.nRecords = 0) :
    Inv cfg (dataPassState s) := by
  obtain ⟨h1, h2, h3, hL, hWF, hPB, hDP, hFC, hC1, hC2, hW1, hOW, hWC, hWP, hPL,
    hCL, hFL⟩ := hInv
  have hwfp : WFPack p := hWF p (List.getElem?_mem hp)
  refine ⟨h1.trans (Nat.le_succ _), hlog, h3, hL, hWF, hPB, ?_, hFC, hC1, hC2,
    hW1, hOW, hWC, hWP, hPL, hCL, hFL⟩
  intro hiv i hi
  have hi' : i < s.nData + 1 := hi
  rcases Nat.lt_or_ge i s.nData with hlt | hge
  · exact hDP hiv i hlt
  · have hie : i = s.nData := by omega
    subst hie
    show bndN s s.nData ≤ s.lsids.permanent
    rw [bndN_of_get hp]
    have hnl : p.nextLsid = p.lsid := by
      unfold PackInfo.nextLsid; rw [if_pos hz]
    rw [hnl]
    have hfc : fcAt s s.nData = true := by
      rw [fcAt_of_get hp]; exact (hwfp.1 hz).2.2
    have := hFC s.nData (by omega) hfc
    rwa [bnd_of_get hp] at this

theorem inv_dataFast {cfg : DevConfig} {s : PipeState} {p : PackInfo}
    (hInv : Inv cfg s) (hp : s.packs[s.nData]? = some p)
    (hlog : s.nData < s.nLog) (hz : p.nRecords ≠ 0)
    (hgate : cfg.logFlushIntervalJiffies = 0 ∨
      p.lsid + p.lastLsidLocal < s.lsids.permanent) :
    Inv cfg (dataPassState s) := by
  obtain ⟨h1, h2, h3, hL, hWF, hPB, hDP, hFC, hC1, hC2, hW1, hOW, hWC, hWP, hPL,
    hCL, hFL⟩ := hInv
  have hwfp : WFPack p := hWF p (List.getElem?_mem hp)
  refine ⟨h1.trans (Nat.le_succ _), hlog, h3, hL, hWF, hPB, ?_, hFC, hC1, hC2,
    hW1, hOW, hWC, hWP, hPL, hCL, hFL⟩
  intro hiv i hi
  have hi' : i < s.nData + 1 := hi
  rcases Nat.lt_or_ge i s.nData with hlt | hge
  · exact hDP hiv i hlt
  · have hie : i = s.nData := by omega
    subst hie
    have hltp : p.lsid + p.lastLsidLocal < s.lsids.permanent :=
      hgate.resolve_left hiv
    obtain ⟨j, hj, hpj⟩ := hPB
    have h1p : 1 ≤ p.lastLsidLocal := hwfp.2 hz
    have hble : bnd s s.nData < s.lsids.permanent := by
      rw [bnd_of_get hp]; omega
    have hj' : s.nData + 1 ≤ j := by
      by_contra hc
      push_neg at hc
      have := bnd_mono hL (show j ≤ s.nData by omega)
      omega
    show bndN s s.nData ≤ s.lsids.permanent
    rw [← bnd_succ hL]
    exact (bnd_mono hL hj').trans_eq hpj.symm

theorem inv_dataForce {cfg : DevConfig} {s : PipeState}
    (hInv : Inv cfg s) (hlog : s.nData < s.nLog) :
    Inv cfg (dataForceState s) := by
  obtain ⟨h1, h2, h3, hL, hWF, hPB, hDP, hFC, hC1, hC2, hW1, hOW, hWC, hWP, hPL,
    hCL, hFL⟩ := hInv
  have hpge : s.lsids.permanent ≤ (dataForceState s).lsids.permanent := by
    show s.lsids.permanent ≤
      (if s.lsids.permanent < s.lsids.latest then s.lsids.latest else s.lsids.permanent)
    split_ifs <;> omega
  have hlatge : s.lsids.latest ≤ (dataForceState s).lsids.permanent := by
    show s.lsids.latest ≤
      (if s.lsids.permanent < s.lsids.latest then s.lsids.latest else s.lsids.permanent)
    split_ifs <;> omega
  refine ⟨h1.trans (Nat.le_succ _), hlog, h3, hL, hWF, ?_, ?_, ?_, hC1, hC2,
    hW1, hOW, hWC, ?_, ?_, hCL, ?_⟩
  · by_cases hc : s.lsids.permanent < s.lsids.latest
    · refine ⟨s.packs.length, by show s.packs.length < s.packs.length + 1; omega, ?_⟩
      show (if s.lsids.permanent < s.lsids.latest then s.lsids.latest
        else s.lsids.permanent) = bnd s s.packs.length
      rw [if_pos hc, bnd_of_none (le_refl _)]
    · obtain ⟨j, hj, hpj⟩ := hPB
      refine ⟨j, hj, ?_⟩
      show (if s.lsids.permanent < s.lsids.latest then s.lsids.latest
        else s.lsids.permanent) = bnd s j
      rw [if_neg hc]
      exact hpj
  · intro hiv i hi
    have hi' : i < s.nData + 1 := hi
    rcases Nat.lt_or_ge i s.nData with hlt | hge
    · exact (hDP hiv i hlt).trans hpge
    · have hie : i = s.nData := by omega
      subst hie
      exact (bndN_le_latest hL s.nData).trans hlatge
  · intro i hi hf
    exact (hFC i hi hf).trans hpge
  · intro hiv
    exact (hWP hiv).trans hpge
  · show (if s.lsids.permanent < s.lsids.latest then s.lsids.latest
      else s.lsids.permanent) ≤ s.lsids.latest
    split_ifs <;> omega
  · show (if s.lsids.flush < s.lsids.latest then s.lsids.latest
      else s.lsids.flush) ≤ s.lsids.latest
    split_ifs <;> omega

theorem inv_gc {cfg : DevConfig} {s : PipeState} {p : PackInfo}
    (hInv : Inv cfg s) (hp : s.packs[s.nGc]? = some p)
    (hdata : s.nGc < s.nData) :
    Inv cfg (gcState s p) := by
  obtain ⟨h1, h2, h3, hL, hWF, hPB, hDP, hFC, hC1, hC2, hW1, hOW, hWC, hWP, hPL,
    hCL, hFL⟩ := hInv
  have hbsucc : bnd s (s.nGc + 1) = p.nextLsid := by
    rw [bnd_succ hL, bndN_of_get hp]
  have hcompeq : s.lsids.completed = bnd s s.nLog := by
    have h := hC2 (by omega)
    rw [h, ← bnd_succ hL]
    congr 1
    omega
  refine ⟨hdata, h2, h3, hL, hWF, hPB, hDP, hFC, hC1, hC2, ?_, ?_, ?_, ?_, hPL,
    hCL, hFL⟩
  · show p.nextLsid ≤ bnd s (s.nGc + 1)
    rw [hbsucc]
  · show s.lsids.oldest ≤ p.nextLsid
    exact hOW.trans (hW1.trans ((bnd_le_succ hL s.nGc).trans_eq hbsucc))
  · show p.nextLsid ≤ s.lsids.completed
    rw [hcompeq, ← hbsucc]
    exact bnd_mono hL (by omega)
  · intro hiv
    show p.nextLsid ≤ s.lsids.permanent
    have := hDP hiv s.nGc hdata
    rwa [bndN_of_get hp] at this

theorem inv_step {cfg : DevConfig} {s s' : PipeState}
    (hInv : Inv cfg s) (hs : Step cfg s s') : Inv cfg s' := by
  cases hs with
  | create p fl hlsid hwf hflush hnoerr => exact inv_create hInv hlsid hwf hflush
  | completeLog p hp => exact inv_completeLog hInv hp
  | dataSkip p hp hlog hz => exact inv_dataSkip hInv hp hlog hz
  | dataFast p hp hlog hz hgate => exact inv_dataFast hInv hp hlog hz hgate
  | dataForce p hp hlog hz hgate hng => exact inv_dataForce hInv hlog
  | gc p hp hdata => exact inv_gc hInv hp hdata

theorem inv_reachable {cfg : DevConfig} {s0 s : PipeState}
    (h0 : Inv cfg s0) (hR : Reachable cfg s0 s) : Inv cfg s := by
  induction hR with
  | refl => exact h0
  | tail _ hstep ih => exact inv_step ih hstep

/-- Per-step monotonicity of the watermarks; `flush` and `permanent` are
monotone when the LDEV queue supports flush (otherwise the log-completion
compensation path reassigns them, see `completeLogEffect`). -/
theorem step_mono {cfg : DevConfig} {s s' : PipeState}
    (hInv : Inv cfg s) (hs : Step cfg s s') :
    s.lsids.latest ≤ s'.lsids.latest ∧ s.lsids.completed ≤ s'.lsids.completed ∧
    s.lsids.written ≤ s'.lsids.written ∧ s.lsids.oldest ≤ s'.lsids.oldest ∧
    (cfg.flushSupport = true →
      s.lsids.permanent ≤ s'.lsids.permanent ∧ s.lsids.flush ≤ s'.lsids.flush) := by
  obtain ⟨h1, h2, h3, hL, hWF, hPB, hDP, hFC, hC1, hC2, hW1, hOW, hWC, hWP, hPL,
    hCL, hFL⟩ := hInv
  cases hs with
  | create p fl hlsid hwf hflush hnoerr =>
    refine ⟨?_, le_refl _, le_refl _, le_refl _, fun _ => ⟨le_refl _, ?_⟩⟩
    · show s.lsids.latest ≤ p.nextLsid
      rw [← hlsid]; exact nextLsid_ge p
    · show s.lsids.flush ≤ (if s.lsids.flush < fl then fl else s.lsids.flush)
      split_ifs <;> omega
  | completeLog p hp =>
    have hnl : s.nLog < s.packs.length := (List.getElem?_eq_some.mp hp).1
    have hco : (completeLogState cfg s p).lsids.completed = p.nextLsid :=
      completeLogEffect_completed cfg p s.lsids
    refine ⟨le_of_eq (completeLogEffect_latest cfg p s.lsids).symm, ?_,
      le_of_eq (completeLogEffect_written cfg p s.lsids).symm,
      le_of_eq (completeLogEffect_oldest cfg p s.lsids).symm,
      fun hsup => ⟨(completeLogEffect_permanent_sup cfg p s.lsids hsup).1, ?_⟩⟩
    · rw [hco]
      have hb := hC1.trans_eq (bnd_of_get hp)
      exact hb.trans (nextLsid_ge p)
    · have hfl : (completeLogState cfg s p).lsids.flush = s.lsids.flush := by
        show (completeLogEffect cfg p s.lsids).flush = _
        rw [completeLogEffect_flush, if_pos hsup]
      rw [hfl]
  | dataSkip p hp hlog hz =>
    exact ⟨le_refl _, le_refl _, le_refl _, le_refl _,
      fun _ => ⟨le_refl _, le_refl _⟩⟩
  | dataFast p hp hlog hz hgate =>
    exact ⟨le_refl _, le_refl _, le_refl _, le_refl _,
      fun _ => ⟨le_refl _, le_refl _⟩⟩
  | dataForce p hp hlog hz hgate hng =>
    refine ⟨le_refl _, le_refl _, le_refl _, le_refl _, fun _ => ⟨?_, ?_⟩⟩
    · show s.lsids.permanent ≤ (if s.lsids.permanent < s.lsids.latest
        then s.lsids.latest else s.lsids.permanent)
      split_ifs <;> omega
    · show s.lsids.flush ≤ (if s.lsids.flush < s.lsids.latest
        then s.lsids.latest else s.lsids.flush)
      split_ifs <;> omega
  | gc p hp hdata =>
    refine ⟨le_refl _, le_refl _, ?_, le_refl _, fun _ => ⟨le_refl _, le_refl _⟩⟩
    show s.lsids.written ≤ p.nextLsid
    have hbsucc : bnd s (s.nGc + 1) = p.nextLsid := by
      rw [bnd_succ hL, bndN_of_get hp]
    exact hW1.trans ((bnd_le_succ hL s.nGc).trans_eq hbsucc)

/-- C1 (amended): at every reachable state of the pipeline with the permanence
gate active (`log_flush_interval_jiffies ≠ 0`), the stored watermarks satisfy
`oldest ≤ written ≤ permanent ≤ latest`, `written ≤ completed ≤ latest` and
`flush ≤ latest`; across every pipeline step each of `latest`, `completed`,
`written`, `oldest` is non-decreasing, and `permanent` and `flush` are also
non-decreasing provided the log device queue supports flush.  (The original
claim is corrected in two points forced by the code: the forced flush of
`wait_for_log_permanent` promotes `permanent := latest` past `completed`, and
on a flush-incapable queue `wait_for_logpack_and_submit_datapack` reassigns
`flush` downward, see the counterexample.) -/
theorem C1_watermark_chain_and_monotonicity (cfg : DevConfig) (s0 s : PipeState)
    (h0 : Inv cfg s0) (hR : Reachable cfg s0 s)
    (hGate : cfg.logFlushIntervalJiffies ≠ 0) :
    Chain s.lsids ∧
      ∀ s', Step cfg s s' →
        s.lsids.latest ≤ s'.lsids.latest ∧ s.lsids.completed ≤ s'.lsids.completed ∧
        s.lsids.written ≤ s'.lsids.written ∧ s.lsids.oldest ≤ s'.lsids.oldest ∧
        (cfg.flushSupport = true →
          s.lsids.permanent ≤ s'.lsids.permanent ∧ s.lsids.flush ≤ s'.lsids.flush) := by
  have hInv := inv_reachable h0 hR
  constructor
  · obtain ⟨h1, h2, h3, hL, hWF, hPB, hDP, hFC, hC1, hC2, hW1, hOW, hWC, hWP, hPL,
      hCL, hFL⟩ := hInv
    exact ⟨hOW, hWP hGate, hWC, hPL, hCL, hFL⟩
  · exact fun s' hs => step_mono hInv hs

/-- Witness for C1 at a concrete configuration and the initial state. -/
theorem C1_watermark_chain_and_monotonicity_witness :
    Inv cfgFlushCapable (initState 5) ∧
    cfgFlushCapable.logFlushIntervalJiffies ≠ 0 ∧
    (Chain (initState 5).lsids ∧
      ∀ s', Step cfgFlushCapable (initState 5) s' →
        (initState 5).lsids.latest ≤ s'.lsids.latest ∧
        (initState 5).lsids.completed ≤ s'.lsids.completed ∧
        (initState 5).lsids.written ≤ s'.lsids.written ∧
        (initState 5).lsids.oldest ≤ s'.lsids.oldest ∧
        (cfgFlushCapable.flushSupport = true →
          (initState 5).lsids.permanent ≤ s'.lsids.permanent ∧
          (initState 5).lsids.flush ≤ s'.lsids.flush)) :=
  ⟨by decide, by decide,
    C1_watermark_chain_and_monotonicity cfgFlushCapable (initState 5) (initState 5)
      (by decide) Relation.ReflTransGen.refl (by decide)⟩

/-- C1 counterexample: on a device whose LDEV queue does not support flush,
the log-completion step of the first pack reassigns
`flush := get_next_lsid(logh) = 2` (io.c:2179) although `flush = 3` was
already stored, so `flush` is not non-decreasing across every pipeline step
as the claim states. -/
theorem C1_flush_decreases_counterexample :
    Reachable cfgNoFlush (initState 0) stateCE ∧
    Step cfgNoFlush stateCE (completeLogState cfgNoFlush stateCE packA) ∧
    (completeLogState cfgNoFlush stateCE packA).lsids.flush < stateCE.lsids.flush := by
  refine ⟨?_, ?_, ?_⟩
  · exact Relation.ReflTransGen.tail
      (Relation.ReflTransGen.tail Relation.ReflTransGen.refl
        (Step.create packA 0 (by decide) (by decide) (by decide) (by decide)))
      (Step.create packB 3 (by decide) (by decide) (by decide) (by decide))
  · exact Step.completeLog packA (by decide)
  · decide

theorem eraseLsid_assignLsid (pk : WPack) (b : BioW) :
    eraseLsid (assignLsid pk b) = eraseLsid b := by
  unfold assignLsid eraseLsid
  cases pk.lhead.records.getLast? <;> rfl

theorem check_and_set_biows (pk : WPack) :
    (writepack_check_and_set_flush pk).biows = pk.biows := by
  unfold writepack_check_and_set_flush; split_ifs <;> rfl

theorem check_and_set_lhead (pk : WPack) :
    (writepack_check_and_set_flush pk).lhead = pk.lhead := by
  unfold writepack_check_and_set_flush; split_ifs <;> rfl

theorem packAddFin_wpackList (cfg : DevConfig) (now : Nat) (st : BuilderSt)
    (pk : WPack) (b : BioW) :
    (packAddFin cfg now st pk b).wpackList = st.wpackList := by
  simp only [packAddFin]; split_ifs <;> rfl

theorem packAddFin_wpack (cfg : DevConfig) (now : Nat) (st : BuilderSt)
    (pk : WPack) (b : BioW) :
    ∃ pk', (packAddFin cfg now st pk b).wpack = some pk' ∧
      pk'.lhead = pk.lhead ∧ pk'.biows = pk.biows ++ [assignLsid pk b] := by
  simp only [packAddFin]
  split_ifs <;> exact ⟨_, rfl, rfl, rfl⟩

theorem builderBiows_packAddFin (cfg : DevConfig) (now : Nat) (st : BuilderSt)
    (pk : WPack) (b : BioW) :
    builderBiows (packAddFin cfg now st pk b) =
      (st.wpackList.map WPack.biows).flatten ++
        (pk.biows ++ [assignLsid pk b]) := by
  simp only [packAddFin, builderBiows]
  split_ifs <;> rfl

theorem add_getD_logpackLsid (lh : LogpackHeader) (b : BioW) (pbs rs mr : Nat) :
    ((walb_logpack_header_add_bio lh b pbs rs mr).getD lh).logpackLsid =
      lh.logpackLsid := by
  simp only [walb_logpack_header_add_bio]
  split_ifs <;> rfl

theorem add_some_logpackLsid {lh lh' : LogpackHeader} {b : BioW} {pbs rs mr : Nat}
    (h : walb_logpack_header_add_bio lh b pbs rs mr = some lh') :
    lh'.logpackLsid = lh.logpackLsid := by
  simp only [walb_logpack_header_add_bio] at h
  split_ifs at h <;> simp_all <;> rw [← h]

theorem add_zero_len {lh : LogpackHeader} {b : BioW} {pbs rs mr : Nat}
    (h : b.len = 0) : walb_logpack_header_add_bio lh b pbs rs mr = some lh := by
  simp only [walb_logpack_header_add_bio, h]
  rfl

theorem newpackPath_wpackList (cfg : DevConfig) (now : Nat) (st : BuilderSt)
    (pk : WPack) (b : BioW) :
    (newpackPath cfg now st (some pk) b).wpackList =
      st.wpackList ++ [writepack_check_and_set_flush pk] := by
  simp only [newpackPath, sealPack]
  rw [packAddFin_wpackList]

theorem newpackPath_none_wpackList (cfg : DevConfig) (now : Nat) (st : BuilderSt)
    (b : BioW) :
    (newpackPath cfg now st none b).wpackList = st.wpackList := by
  simp only [newpackPath]
  rw [packAddFin_wpackList]

theorem newpackPath_wpack (cfg : DevConfig) (now : Nat) (st : BuilderSt)
    (pk : WPack) (b : BioW) :
    ∃ npk, (newpackPath cfg now st (some pk) b).wpack = some npk ∧
      npk.lhead.logpackLsid = get_next_lsid pk.lhead ∧
      npk.biows = [assignLsid { create_writepack (get_next_lsid pk.lhead) with
        lhead := (walb_logpack_header_add_bio
          (create_writepack (get_next_lsid pk.lhead)).lhead b cfg.pbs
          cfg.ringBufferPb cfg.maxRecords).getD
          (create_writepack (get_next_lsid pk.lhead)).lhead } b] := by
  simp only [newpackPath, sealPack]
  rw [check_and_set_lhead]
  obtain ⟨pk', hw, hlh, hbs⟩ := packAddFin_wpack cfg now
    { st with wpackList := st.wpackList ++ [writepack_check_and_set_flush pk],
              latestLsid := get_next_lsid pk.lhead }
    { create_writepack (get_next_lsid pk.lhead) with
      lhead := (walb_logpack_header_add_bio
        (create_writepack (get_next_lsid pk.lhead)).lhead b cfg.pbs
        cfg.ringBufferPb cfg.maxRecords).getD
        (create_writepack (get_next_lsid pk.lhead)).lhead } b
  refine ⟨pk', hw, ?_, ?_⟩
  · rw [hlh]
    exact add_getD_logpackLsid _ b cfg.pbs cfg.ringBufferPb cfg.maxRecords
  · rw [hbs]
    rfl

theorem builderBiows_newpackPath (cfg : DevConfig) (now : Nat) (st : BuilderSt)
    (old : Option WPack) (b : BioW) (hw : st.wpack = old) :
    (builderBiows (newpackPath cfg now st old b)).map eraseLsid =
      (builderBiows st).map eraseLsid ++ [eraseLsid b] := by
  cases old with
  | none =>
    simp only [newpackPath]
    rw [builderBiows_packAddFin]
    simp [builderBiows, hw, eraseLsid_assignLsid, create_writepack]
  | some pk =>
    simp only [newpackPath, sealPack]
    rw [builderBiows_packAddFin]
    simp [builderBiows, hw, eraseLsid_assignLsid, check_and_set_biows,
      create_writepack]

theorem builderBiows_add (cfg : DevConfig) (now : Nat) (st : BuilderSt) (b : BioW) :
    (builderBiows (writepack_add_bio_wrapper cfg now st b)).map eraseLsid =
      (builderBiows st).map eraseLsid ++ [eraseLsid b] := by
  cases hw : st.wpack with
  | none =>
    simp only [writepack_add_bio_wrapper, hw]
    exact builderBiows_newpackPath cfg now st none b hw
  | some pk =>
    simp only [writepack_add_bio_wrapper, hw]
    split_ifs with h1 h2
    · exact builderBiows_newpackPath cfg now st (some pk) b hw
    · exact builderBiows_newpackPath cfg now st (some pk) b hw
    · cases hadd : walb_logpack_header_add_bio pk.lhead b cfg.pbs cfg.ringBufferPb
        cfg.maxRecords with
      | none =>
        simp only [hadd]
        exact builderBiows_newpackPath cfg now st (some pk) b hw
      | some lh =>
        simp only [hadd]
        rw [builderBiows_packAddFin]
        simp [builderBiows, hw, eraseLsid_assignLsid]

theorem builderBiows_foldl (cfg : DevConfig) (now : Nat) (biows : List BioW) :
    ∀ st : BuilderSt,
      (builderBiows (biows.foldl (writepack_add_bio_wrapper cfg now) st)).map
          eraseLsid =
        (builderBiows st).map eraseLsid ++ biows.map eraseLsid := by
  induction biows with
  | nil => intro st; simp
  | cons b bs ih =>
    intro st
    simp only [List.foldl_cons, List.map_cons]
    rw [ih, builderBiows_add]
    simp

/-- C3 (confirmed): for a non-empty open pack, `writepack_add_bio_wrapper`
seals it and opens a new pack at `get_next_lsid` exactly when the pack
is zero-flush-only, or it has records and the write carries REQ_FLUSH, or the
write would push `total_io_size` past `max_logpack_pb`
(`is_pack_size_too_large`, no limit at 0), or the logpack-header record
capacity would be exceeded (`walb_logpack_header_add_bio` fails); otherwise
the write is appended to the open pack. -/
theorem C3_writepack_add_seal_conditions (cfg : DevConfig) (now : Nat)
    (st : BuilderSt) (pk : WPack) (biow : BioW)
    (hpk : st.wpack = some pk) (hne : pk.biows ≠ []) :
    ((pk.lhead.records.length = 0 ∨
      (0 < pk.lhead.records.length ∧ biow.isFlush = true) ∨
      is_pack_size_too_large pk.lhead cfg.pbs cfg.maxLogpackPb biow = true ∨
      walb_logpack_header_add_bio pk.lhead biow cfg.pbs cfg.ringBufferPb
        cfg.maxRecords = none) →
      ((writepack_add_bio_wrapper cfg now st biow).wpackList =
        st.wpackList ++ [writepack_check_and_set_flush pk] ∧
       ∃ npk, (writepack_add_bio_wrapper cfg now st biow).wpack = some npk ∧
         npk.lhead.logpackLsid = get_next_lsid pk.lhead)) ∧
    (¬(pk.lhead.records.length = 0 ∨
      (0 < pk.lhead.records.length ∧ biow.isFlush = true) ∨
      is_pack_size_too_large pk.lhead cfg.pbs cfg.maxLogpackPb biow = true ∨
      walb_logpack_header_add_bio pk.lhead biow cfg.pbs cfg.ringBufferPb
        cfg.maxRecords = none) →
      ((writepack_add_bio_wrapper cfg now st biow).wpackList = st.wpackList ∧
       ∃ npk, (writepack_add_bio_wrapper cfg now st biow).wpack = some npk ∧
         npk.lhead.logpackLsid = pk.lhead.logpackLsid ∧
         npk.biows.map eraseLsid = (pk.biows ++ [biow]).map eraseLsid)) := by
  have hie : pk.biows.isEmpty = false := by
    cases hb2 : pk.biows with
    | nil => exact absurd hb2 hne
    | cons x xs => rfl
  by_cases h0 : pk.lhead.records.length = 0
  · have hzf : is_zero_flush_only pk = true := by
      simp [is_zero_flush_only, h0, hie]
    have hres : writepack_add_bio_wrapper cfg now st biow =
        newpackPath cfg now st (some pk) biow := by
      simp only [writepack_add_bio_wrapper, hpk, hzf]
      rfl
    refine ⟨fun _ => ?_, fun hc => absurd (Or.inl h0) hc⟩
    rw [hres, newpackPath_wpackList]
    obtain ⟨npk, hw, hlsid, _⟩ := newpackPath_wpack cfg now st pk biow
    exact ⟨rfl, npk, hw, hlsid⟩
  · have h0' : 0 < pk.lhead.records.length := Nat.pos_of_ne_zero h0
    have hzf : is_zero_flush_only pk = false := by
      simp [is_zero_flush_only, h0]
    by_cases hseal2 : biow.isFlush = true ∨
        is_pack_size_too_large pk.lhead cfg.pbs cfg.maxLogpackPb biow = true
    · have hcond : (decide (pk.lhead.records.length > 0) &&
          (biow.isFlush || is_pack_size_too_large pk.lhead cfg.pbs
            cfg.maxLogpackPb biow)) = true := by
        rcases hseal2 with h | h <;> simp [h0', h]
      have hres : writepack_add_bio_wrapper cfg now st biow =
          newpackPath cfg now st (some pk) biow := by
        simp only [writepack_add_bio_wrapper, hpk, hzf, hcond]
        rfl
      refine ⟨fun _ => ?_, fun hc => ?_⟩
      · rw [hres, newpackPath_wpackList]
        obtain ⟨npk, hw, hlsid, _⟩ := newpackPath_wpack cfg now st pk biow
        exact ⟨rfl, npk, hw, hlsid⟩
      · rcases hseal2 with h | h
        · exact absurd (Or.inr (Or.inl ⟨h0', h⟩)) hc
        · exact absurd (Or.inr (Or.inr (Or.inl h))) hc
    · push_neg at hseal2
      obtain ⟨hnf, hnl⟩ := hseal2
      have hcond : (decide (pk.lhead.records.length > 0) &&
          (biow.isFlush || is_pack_size_too_large pk.lhead cfg.pbs
            cfg.maxLogpackPb biow)) = false := by
        simp only [Bool.and_eq_false_iff, Bool.or_eq_false_iff]
        right
        constructor
        · exact Bool.eq_false_iff.mpr hnf
        · exact Bool.eq_false_iff.mpr hnl
      cases hadd : walb_logpack_header_add_bio pk.lhead biow cfg.pbs
        cfg.ringBufferPb cfg.maxRecords with
      | none =>
        have hres : writepack_add_bio_wrapper cfg now st biow =
            newpackPath cfg now st (some pk) biow := by
          simp only [writepack_add_bio_wrapper, hpk, hzf, hcond, hadd]
          rfl
        refine ⟨fun _ => ?_, fun hc => absurd (Or.inr (Or.inr (Or.inr rfl))) hc⟩
        rw [hres, newpackPath_wpackList]
        obtain ⟨npk, hw, hlsid, _⟩ := newpackPath_wpack cfg now st pk biow
        exact ⟨rfl, npk, hw, hlsid⟩
      | some lh =>
        have hres : writepack_add_bio_wrapper cfg now st biow =
            packAddFin cfg now st { pk with lhead := lh } biow := by
          simp only [writepack_add_bio_wrapper, hpk, hzf, hcond, hadd]
          rfl
        refine ⟨fun hc => ?_, fun _ => ?_⟩
        · rcases hc with h | ⟨_, h⟩ | h | h
          · exact absurd h h0
          · exact absurd h hnf
          · exact absurd h hnl
          · exact Option.noConfusion h
        · rw [hres]
          obtain ⟨npk, hw, hlh, hbs⟩ := packAddFin_wpack cfg now st
            { pk with lhead := lh } biow
          refine ⟨packAddFin_wpackList cfg now st { pk with lhead := lh } biow,
            npk, hw, ?_, ?_⟩
          · rw [hlh]
            exact add_some_logpackLsid hadd
          · rw [hbs]
            simp [eraseLsid_assignLsid]

theorem gateForce_spec (cfg : DevConfig) (flushErr : Bool) (now : Nat) (g : GateSt)
    (hfl : g.lsids.flush ≤ g.lsids.latest)
    (hpm : g.lsids.permanent ≤ g.lsids.latest) :
    (gateForce cfg flushErr now g).lsids.flush = g.lsids.latest ∧
    (gateForce cfg flushErr now g).lsids.permanent = g.lsids.latest ∧
    (gateForce cfg flushErr now g).flushIssued = true ∧
    (flushErr = true → (gateForce cfg flushErr now g).readOnly = true) := by
  simp only [gateForce]
  split_ifs <;> simp_all <;> omega

/-- With the rest of the device quiescent, the retry loop either returns at
once because `lsid < permanent`, or ends in the forced-flush tail. -/
theorem gateLoop_cases (cfg : DevConfig) (flushErr : Bool) (timeout lsid : Nat) :
    ∀ (fuel now : Nat) (g : GateSt),
      (lsid < g.lsids.permanent ∧ gateLoop cfg flushErr timeout lsid fuel now g = g) ∨
      (¬lsid < g.lsids.permanent ∧
        ∃ t, gateLoop cfg flushErr timeout lsid fuel now g = gateForce cfg flushErr t g) := by
  intro fuel
  induction fuel with
  | zero =>
    intro now g
    by_cases h : lsid < g.lsids.permanent
    · exact Or.inl ⟨h, by simp [gateLoop, h]⟩
    · exact Or.inr ⟨h, now, by simp [gateLoop, h]⟩
  | succ n ih =>
    intro now g
    by_cases h : lsid < g.lsids.permanent
    · exact Or.inl ⟨h, by simp [gateLoop, h]⟩
    · refine Or.inr ⟨h, ?_⟩
      by_cases h2 : now < timeout ∧ lsid < g.lsids.flush + cfg.logFlushIntervalPb ∧
          now < g.logFlushJiffies
      · have : gateLoop cfg flushErr timeout lsid (n + 1) now g =
            gateLoop cfg flushErr timeout lsid n (now + 1) g := by
          simp [gateLoop, h, h2]
        rw [this]
        rcases ih (now + 1) g with ⟨hlt, _⟩ | ⟨_, t, ht⟩
        · exact absurd hlt h
        · exact ⟨t, ht⟩
      · exact ⟨now, by simp [gateLoop, h, h2]⟩

/-- C2 (confirmed): `wait_for_log_permanent` is a no-op when
`log_flush_interval_jiffies == 0`; otherwise, on return, either
`lsid ≤ permanent` already held (early return, state untouched), or the gate
has promoted `flush := latest`, issued the unconditional LDEV flush, set
`permanent := latest`, and a flush error has turned the device read-only. -/
theorem C2_wait_for_log_permanent_behavior (cfg : DevConfig) (flushErr : Bool)
    (now : Nat) (g : GateSt) (lsid : Nat)
    (hfl : g.lsids.flush ≤ g.lsids.latest)
    (hpm : g.lsids.permanent ≤ g.lsids.latest) :
    (cfg.logFlushIntervalJiffies = 0 →
      wait_for_log_permanent cfg flushErr now g lsid = g) ∧
    (cfg.logFlushIntervalJiffies ≠ 0 →
      (lsid ≤ g.lsids.permanent ∧ wait_for_log_permanent cfg flushErr now g lsid = g) ∨
      ((wait_for_log_permanent cfg flushErr now g lsid).lsids.flush = g.lsids.latest ∧
       (wait_for_log_permanent cfg flushErr now g lsid).flushIssued = true ∧
       (wait_for_log_permanent cfg flushErr now g lsid).lsids.permanent = g.lsids.latest ∧
       (flushErr = true →
         (wait_for_log_permanent cfg flushErr now g lsid).readOnly = true))) := by
  constructor
  · intro h0
    simp [wait_for_log_permanent, h0]
  · intro hne
    have hw : wait_for_log_permanent cfg flushErr now g lsid =
        gateLoop cfg flushErr (now + cfg.logFlushIntervalJiffies) lsid
          cfg.logFlushIntervalJiffies now g := by
      simp [wait_for_log_permanent, hne]
    rcases gateLoop_cases cfg flushErr (now + cfg.logFlushIntervalJiffies) lsid
      cfg.logFlushIntervalJiffies now g with ⟨hlt, heq⟩ | ⟨_, t, heq⟩
    · exact Or.inl ⟨Nat.le_of_lt hlt, by rw [hw, heq]⟩
    · obtain ⟨hf1, hf2, hf3, hf4⟩ := gateForce_spec cfg flushErr t g hfl hpm
      exact Or.inr ⟨by rw [hw, heq]; exact hf1, by rw [hw, heq]; exact hf3,
        by rw [hw, heq]; exact hf2, fun he => by rw [hw, heq]; exact hf4 he⟩

/-- Witness for C2: a forced-flush run at a concrete state. -/
theorem C2_wait_for_log_permanent_behavior_witness :
    ({ latest := 20, flush := 12, completed := 18, permanent := 10, written := 4,
       oldest := 0 } : LsidSet).flush ≤ 20 ∧
    ({ latest := 20, flush := 12, completed := 18, permanent := 10, written := 4,
       oldest := 0 } : LsidSet).permanent ≤ 20 ∧
    ((cfgFlushCapable.logFlushIntervalJiffies = 0 →
      wait_for_log_permanent cfgFlushCapable true 7
        { lsids := { latest := 20, flush := 12, completed := 18, permanent := 10,
                     written := 4, oldest := 0 },
          logFlushJiffies := 9, readOnly := false, flushIssued := false } 15 =
        { lsids := { latest := 20, flush := 12, completed := 18, permanent := 10,
                     written := 4, oldest := 0 },
          logFlushJiffies := 9, readOnly := false, flushIssued := false }) ∧
    (cfgFlushCapable.logFlushIntervalJiffies ≠ 0 →
      (15 ≤ 10 ∧ wait_for_log_permanent cfgFlushCapable true 7
        { lsids := { latest := 20, flush := 12, completed := 18, permanent := 10,
                     written := 4, oldest := 0 },
          logFlushJiffies := 9, readOnly := false, flushIssued := false } 15 =
        { lsids := { latest := 20, flush := 12, completed := 18, permanent := 10,
                     written := 4, oldest := 0 },
          logFlushJiffies := 9, readOnly := false, flushIssued := false }) ∨
      ((wait_for_log_permanent cfgFlushCapable true 7
        { lsids := { latest := 20, flush := 12, completed := 18, permanent := 10,
                     written := 4, oldest := 0 },
          logFlushJiffies := 9, readOnly := false, flushIssued := false } 15).lsids.flush = 20 ∧
       (wait_for_log_permanent cfgFlushCapable true 7
        { lsids := { latest := 20, flush := 12, completed := 18, permanent := 10,
                     written := 4, oldest := 0 },
          logFlushJiffies := 9, readOnly := false, flushIssued := false } 15).flushIssued = true ∧
       (wait_for_log_permanent cfgFlushCapable true 7
        { lsids := { latest := 20, flush := 12, completed := 18, permanent := 10,
                     written := 4, oldest := 0 },
          logFlushJiffies := 9, readOnly := false, flushIssued := false } 15).lsids.permanent = 20 ∧
       (true = true →
         (wait_for_log_permanent cfgFlushCapable true 7
        { lsids := { latest := 20, flush := 12, completed := 18, permanent := 10,
                     written := 4, oldest := 0 },
          logFlushJiffies := 9, readOnly := false, flushIssued := false } 15).readOnly = true)))) :=
  ⟨by decide, by decide,
    C2_wait_for_log_permanent_behavior cfgFlushCapable true 7
      { lsids := { latest := 20, flush := 12, completed := 18, permanent := 10,
                   written := 4, oldest := 0 },
        logFlushJiffies := 9, readOnly := false, flushIssued := false } 15
      (by decide) (by decide)⟩

theorem C3_writepack_add_seal_conditions_witness :
    stW.wpack = some wpackW ∧ wpackW.biows ≠ [] ∧
    ((writepack_add_bio_wrapper cfgFlushCapable 0 stW biowW).wpackList =
      stW.wpackList ++ [writepack_check_and_set_flush wpackW] ∧
     ∃ npk, (writepack_add_bio_wrapper cfgFlushCapable 0 stW biowW).wpack =
        some npk ∧
       npk.lhead.logpackLsid = get_next_lsid wpackW.lhead) :=
  ⟨rfl, by decide,
    (C3_writepack_add_seal_conditions cfgFlushCapable 0 stW wpackW biowW rfl
      (by decide)).1 (Or.inr (Or.inl ⟨by decide, by decide⟩))⟩

/-- C4 (corrected): when `is_error_before_overflow` is set and the packed
batch would make `latest - oldest` exceed `ring_buffer_pb`,
`create_logpack_list` returns failure with every wrapper of the batch failed,
no packs, and the stored lsids, `log_flush_jiffies` and the LOG_OVERFLOW flag
all unchanged: the error return at io.c:1036-1052 happens before the
overflow-flag code at io.c:1066-1075, so LOG_OVERFLOW is NOT set on this
path. -/
theorem C4_error_before_overflow (cfg : DevConfig) (now : Nat) (ls : LsidSet)
    (lfj : Nat) (ov : Bool) (biows : List BioW) (pk : WPack)
    (hpk : (builderAfter cfg now ls lfj biows).wpack = some pk)
    (herr : cfg.isErrorBeforeOverflow = true)
    (hover : cfg.ringBufferPb < get_next_lsid pk.lhead - ls.oldest) :
    (create_logpack_list cfg now ls lfj ov biows).ok = false ∧
    (create_logpack_list cfg now ls lfj ov biows).lsids = ls ∧
    (create_logpack_list cfg now ls lfj ov biows).logFlushJiffies = lfj ∧
    (create_logpack_list cfg now ls lfj ov biows).overflow = ov ∧
    (create_logpack_list cfg now ls lfj ov biows).wpacks = [] ∧
    (create_logpack_list cfg now ls lfj ov biows).failed.map eraseLsid =
      biows.map eraseLsid := by
  have hb : (builderBiows (builderAfter cfg now ls lfj biows)).map eraseLsid =
      biows.map eraseLsid := by
    unfold builderAfter
    rw [builderBiows_foldl]
    simp [builderBiows]
  have hb2 : builderBiows (builderAfter cfg now ls lfj biows) =
      ((builderAfter cfg now ls lfj biows).wpackList.map WPack.biows).flatten ++
        pk.biows := by
    unfold builderBiows
    rw [hpk]
  have key : ∀ q : WPack, q.biows = pk.biows →
      ((((builderAfter cfg now ls lfj biows).wpackList ++ [q]).map
        WPack.biows).flatten).map eraseLsid = biows.map eraseLsid := by
    intro q hq
    rw [List.map_append, List.flatten_append, List.map_append]
    simp only [List.map_cons, List.map_nil, List.flatten_cons,
      List.flatten_nil, List.append_nil, hq]
    rw [← List.map_append, ← hb2, hb]
  have hcond : (cfg.isErrorBeforeOverflow && decide (cfg.ringBufferPb <
      get_next_lsid (writepack_check_and_set_flush pk).lhead -
        ls.oldest)) = true := by
    rw [herr, check_and_set_lhead]
    simpa using hover
  simp only [create_logpack_list, hpk]
  split_ifs <;>
    exact ⟨rfl, rfl, rfl, rfl, rfl, key _ (check_and_set_biows pk)⟩

theorem C4_error_before_overflow_witness :
    (builderAfter cfgErr 0 lsZero 0 [bioBig]).wpack = some pkErr ∧
    cfgErr.isErrorBeforeOverflow = true ∧
    cfgErr.ringBufferPb < get_next_lsid pkErr.lhead - lsZero.oldest ∧
    ((create_logpack_list cfgErr 0 lsZero 0 false [bioBig]).ok = false ∧
     (create_logpack_list cfgErr 0 lsZero 0 false [bioBig]).lsids = lsZero ∧
     (create_logpack_list cfgErr 0 lsZero 0 false [bioBig]).logFlushJiffies = 0 ∧
     (create_logpack_list cfgErr 0 lsZero 0 false [bioBig]).overflow = false ∧
     (create_logpack_list cfgErr 0 lsZero 0 false [bioBig]).wpacks = [] ∧
     (create_logpack_list cfgErr 0 lsZero 0 false [bioBig]).failed.map
        eraseLsid = [bioBig].map eraseLsid) :=
  ⟨by decide, rfl, by decide,
    C4_error_before_overflow cfgErr 0 lsZero 0 false [bioBig] pkErr (by decide)
      rfl (by decide)⟩

/-- C4 counterexample: a batch that takes the `is_error_before_overflow`
error path (the whole batch fails, `ok = false`) leaves the LOG_OVERFLOW flag
clear, refuting the claim that the flag is set on this path. -/
theorem C4_overflow_flag_counterexample :
    (create_logpack_list cfgErr 0 lsZero 0 false [bioBig]).ok = false ∧
    (create_logpack_list cfgErr 0 lsZero 0 false [bioBig]).overflow = false := by
  decide

theorem newpackPath_zero_len (cfg : DevConfig) (now : Nat) (st : BuilderSt)
    (old : Option WPack) (b : BioW) (hlen : b.len = 0) :
    ∃ npk, (newpackPath cfg now st old b).wpack = some npk ∧
      npk.lhead.records = [] ∧ npk.biows.map eraseLsid = [eraseLsid b] := by
  simp only [newpackPath]
  rw [add_zero_len hlen, Option.getD_some]
  simp only [packAddFin]
  split_ifs <;>
    refine ⟨_, rfl, rfl, ?_⟩ <;>
    simp [eraseLsid_assignLsid, create_writepack]

theorem add_zero_flush_first (cfg : DevConfig) (now : Nat) (st : BuilderSt)
    (b : BioW) (hlen : b.len = 0) (hfl : b.isFlush = true) :
    ∃ npk, (writepack_add_bio_wrapper cfg now st b).wpack = some npk ∧
      npk.lhead.records = [] ∧ npk.biows.map eraseLsid = [eraseLsid b] := by
  cases hw : st.wpack with
  | none =>
    simp only [writepack_add_bio_wrapper, hw]
    exact newpackPath_zero_len cfg now st none b hlen
  | some pk0 =>
    simp only [writepack_add_bio_wrapper, hw]
    by_cases hzf : is_zero_flush_only pk0 = true
    · rw [if_pos hzf]
      exact newpackPath_zero_len cfg now st (some pk0) b hlen
    · by_cases hc2 : (decide (pk0.lhead.records.length > 0) &&
          (b.isFlush || is_pack_size_too_large pk0.lhead cfg.pbs
            cfg.maxLogpackPb b)) = true
      · rw [if_neg hzf, if_pos hc2]
        exact newpackPath_zero_len cfg now st (some pk0) b hlen
      · rw [if_neg hzf, if_neg hc2]
        have hr0 : pk0.lhead.records.length = 0 := by
          by_contra hr
          apply hc2
          simp [Nat.pos_of_ne_zero hr, hfl]
        have hbe : pk0.biows = [] := by
          cases hbb : pk0.biows with
          | nil => rfl
          | cons x xs =>
            exact absurd (by simp [is_zero_flush_only, hr0, hbb]) hzf
        simp only [add_zero_len hlen]
        simp only [packAddFin]
        split_ifs <;>
          exact ⟨_, rfl, List.length_eq_zero.mp hr0,
            by simp [hbe, eraseLsid_assignLsid]⟩

/-- C5 (confirmed): a zero-length flush write always lands as the sole first
entry of a pack whose header has no records; `writepack_check_and_set_flush`
sets `is_zero_flush_only` exactly when the pack closes with zero records;
a zero-flush-only pack is submitted to the log device as a bare flush with
no header or payload write; and on completion its wrapper ends with status 0,
is never queued for the data stage, and `permanent` advances to at least the
pack's lsid. -/
theorem C5_zero_flush_only_pack (cfg : DevConfig) (now : Nat) (st : BuilderSt)
    (b : BioW) (pk : WPack) (ls : LsidSet) (pbs off rs : Nat)
    (hlen : b.len = 0) (hfl : b.isFlush = true) :
    (∃ npk, (writepack_add_bio_wrapper cfg now st b).wpack = some npk ∧
      npk.lhead.records = [] ∧ npk.biows.map eraseLsid = [eraseLsid b]) ∧
    (pk.isZeroFlushOnly = false →
      ((writepack_check_and_set_flush pk).isZeroFlushOnly = true ↔
        pk.lhead.records.length = 0)) ∧
    (pk.isZeroFlushOnly = true →
      submit_logpack_list pbs off rs [pk] = [LdevOp.flushReq]) ∧
    (pk.biows = [b] → pk.lhead.records = [] → pk.isFlushContained = true →
      cfg.flushSupport = true →
      (wait_for_logpack_and_submit_datapack cfg ls pk).2.1 = [(b, 0)] ∧
      (wait_for_logpack_and_submit_datapack cfg ls pk).2.2 = [] ∧
      ls.permanent ≤
        (wait_for_logpack_and_submit_datapack cfg ls pk).1.permanent ∧
      pk.lhead.logpackLsid ≤
        (wait_for_logpack_and_submit_datapack cfg ls pk).1.permanent) := by
  refine ⟨add_zero_flush_first cfg now st b hlen hfl, ?_, ?_, ?_⟩
  · intro hz
    unfold writepack_check_and_set_flush
    split_ifs with h
    · simp [h]
    · simp [hz, h]
  · intro hz
    simp [submit_logpack_list, hz]
  · intro hb hr hfc hfs
    have hget : get_next_lsid pk.lhead = pk.lhead.logpackLsid := by
      simp [get_next_lsid, hr]
    simp only [wait_for_logpack_and_submit_datapack, hb, hfs, hget, hfc,
      List.foldl_cons, List.foldl_nil, hlen]
    refine ⟨?_, ?_, ?_, ?_⟩ <;> split_ifs <;> simp_all <;> omega

theorem C5_zero_flush_only_pack_witness :
    submit_logpack_list 512 2 1000 [pkZF] = [LdevOp.flushReq] ∧
    ((wait_for_logpack_and_submit_datapack cfgFlushCapable lsZero pkZF).2.1 =
      [(bioZF, 0)] ∧
     (wait_for_logpack_and_submit_datapack cfgFlushCapable lsZero pkZF).2.2 =
      [] ∧
     lsZero.permanent ≤
      (wait_for_logpack_and_submit_datapack cfgFlushCapable lsZero pkZF).1.permanent ∧
     pkZF.lhead.logpackLsid ≤
      (wait_for_logpack_and_submit_datapack cfgFlushCapable lsZero pkZF).1.permanent) :=
  ⟨(C5_zero_flush_only_pack cfgFlushCapable 0
      { wpackList := [], wpack := none, latestLsid := 0, flushLsid := 0,
        logFlushJiffies := 0 } bioZF pkZF lsZero 512 2 1000 rfl rfl).2.2.1 rfl,
   (C5_zero_flush_only_pack cfgFlushCapable 0
      { wpackList := [], wpack := none, latestLsid := 0, flushLsid := 0,
        logFlushJiffies := 0 } bioZF pkZF lsZero 512 2 1000 rfl rfl).2.2.2
      rfl rfl rfl rfl⟩

/-- C6 (confirmed): with `min_pending_sectors` positive, `should_stop_queue`
freezes exactly when the device is not already throttled and
`pending_sectors + len` exceeds `max_pending_sectors`, and
`should_start_queue` melts exactly when the device is throttled and the
pending amount after removal drops below `min_pending_sectors` (saturating
at 0) or the `queue_stop_timeout` restart deadline has passed. -/
theorem C6_backpressure (tcfg : ThrottleCfg) (now : Nat) (st : ThrottleSt)
    (biowLen : Nat) (hmin : 0 < tcfg.minPendingSectors) :
    (should_stop_queue tcfg now st biowLen).1 =
      (!st.isUnderThrottling &&
        decide (st.pendingSectors + biowLen > tcfg.maxPendingSectors)) ∧
    (should_start_queue tcfg now st biowLen).1 =
      (st.isUnderThrottling &&
        (decide (st.pendingSectors - biowLen < tcfg.minPendingSectors) ||
         decide (st.queueRestartJiffies < now))) := by
  constructor
  · unfold should_stop_queue
    split_ifs <;> simp_all
  · unfold should_start_queue
    cases hth : st.isUnderThrottling with
    | false => simp [hth]
    | true =>
      simp only [hth, Bool.not_true, Bool.true_and]
      rw [if_neg (by decide : ¬((false : Bool) = true))]
      rcases Nat.lt_or_ge st.pendingSectors biowLen with hlt | hge
      · rw [if_neg (by omega : ¬st.pendingSectors ≥ biowLen),
          if_pos (by simp : (true || decide (st.queueRestartJiffies < now)) =
            true)]
        have hsz : st.pendingSectors - biowLen < tcfg.minPendingSectors := by
          omega
        simp [hsz]
      · rw [if_pos hge]
        by_cases hc : (decide (st.pendingSectors - biowLen <
            tcfg.minPendingSectors) ||
            decide (st.queueRestartJiffies < now)) = true
        · rw [if_pos hc]
          exact hc.symm
        · rw [if_neg hc]
          exact (Bool.eq_false_iff.mpr hc).symm

theorem C6_backpressure_witness :
    0 < tcfgW.minPendingSectors ∧
    ((should_stop_queue tcfgW 0 tstW 8).1 =
      (!tstW.isUnderThrottling &&
        decide (tstW.pendingSectors + 8 > tcfgW.maxPendingSectors)) ∧
     (should_start_queue tcfgW 0 tstW 8).1 =
      (tstW.isUnderThrottling &&
        (decide (tstW.pendingSectors - 8 < tcfgW.minPendingSectors) ||
         decide (tstW.queueRestartJiffies < 0)))) :=
  ⟨by decide, C6_backpressure tcfgW 0 tstW 8 (by decide)⟩

theorem submit_payloads_cons (L pbs off rs : Nat) (r : LogRecord) (b : BioW)
    (recs : List LogRecord) (bs : List BioW) (hpad : r.isPadding = false) :
    submit_logpack_payloads L pbs off rs (r :: recs) (b :: bs) =
      payloadFor L pbs off rs r b ++
        submit_logpack_payloads L pbs off rs recs bs := by
  cases recs <;> cases bs <;> simp [submit_logpack_payloads, hpad]

theorem submit_payloads_pad (L pbs off rs : Nat) (rp r : LogRecord) (b : BioW)
    (recs : List LogRecord) (bs : List BioW) (hp : rp.isPadding = true) :
    submit_logpack_payloads L pbs off rs (rp :: r :: recs) (b :: bs) =
      payloadFor L pbs off rs r b ++
        submit_logpack_payloads L pbs off rs recs bs := by
  simp [submit_logpack_payloads, hp]

theorem payloads_mem (pbs off rs L : Nat) :
    ∀ {recs : List LogRecord} {bs : List BioW}, RecsMatch recs bs →
      ∀ op ∈ submit_logpack_payloads L pbs off rs recs bs,
        ∃ r, r ∈ recs ∧ r.isPadding = false ∧ r.isDiscard = false ∧
          op = LdevOp.payloadWrite ((L + r.lsidLocal) % rs + off)
            (capacity_pb pbs r.ioSize) := by
  intro recs bs hm
  induction hm with
  | nil =>
    intro op hop
    exact absurd hop (List.not_mem_nil op)
  | cons r b hpad hdis hsize hnz hm ih =>
    intro op hop
    rw [submit_payloads_cons L pbs off rs r b _ _ hpad] at hop
    cases hd : r.isDiscard with
    | false =>
      simp [payloadFor, hd, hnz, logpack_submit_bio_wrapper] at hop
      rcases hop with h | h
      · exact ⟨r, List.mem_cons_self r _, hpad, hd, by rw [h]⟩
      · obtain ⟨r2, hin, h1, h2, h3⟩ := ih op h
        exact ⟨r2, List.mem_cons_of_mem _ hin, h1, h2, h3⟩
    | true =>
      simp [payloadFor, hd] at hop
      obtain ⟨r2, hin, h1, h2, h3⟩ := ih op hop
      exact ⟨r2, List.mem_cons_of_mem _ hin, h1, h2, h3⟩
  | pad rp r b hp hpad hdis hsize hnz hm ih =>
    intro op hop
    rw [submit_payloads_pad L pbs off rs rp r b _ _ hp] at hop
    cases hd : r.isDiscard with
    | false =>
      simp [payloadFor, hd, hnz, logpack_submit_bio_wrapper] at hop
      rcases hop with h | h
      · exact ⟨r, List.mem_cons_of_mem _ (List.mem_cons_self r _), hpad, hd,
          by rw [h]⟩
      · obtain ⟨r2, hin, h1, h2, h3⟩ := ih op h
        exact ⟨r2, List.mem_cons_of_mem _ (List.mem_cons_of_mem _ hin), h1,
          h2, h3⟩
    | true =>
      simp [payloadFor, hd] at hop
      obtain ⟨r2, hin, h1, h2, h3⟩ := ih op hop
      exact ⟨r2, List.mem_cons_of_mem _ (List.mem_cons_of_mem _ hin), h1,
        h2, h3⟩

theorem payloads_complete (pbs off rs L : Nat) :
    ∀ {recs : List LogRecord} {bs : List BioW}, RecsMatch recs bs →
      ∀ r ∈ recs, r.isPadding = false → r.isDiscard = false →
        LdevOp.payloadWrite ((L + r.lsidLocal) % rs + off)
          (capacity_pb pbs r.ioSize) ∈
          submit_logpack_payloads L pbs off rs recs bs := by
  intro recs bs hm
  induction hm with
  | nil =>
    intro r hr
    exact absurd hr (List.not_mem_nil r)
  | cons r0 b hpad hdis hsize hnz hm ih =>
    intro r hr hrp hrd
    rw [submit_payloads_cons L pbs off rs r0 b _ _ hpad]
    rcases List.mem_cons.mp hr with he | hin
    · subst he
      apply List.mem_append_left
      simp [payloadFor, hrd, hnz, logpack_submit_bio_wrapper]
    · exact List.mem_append_right _ (ih r hin hrp hrd)
  | pad rp r0 b hp hpad hdis hsize hnz hm ih =>
    intro r hr hrp hrd
    rw [submit_payloads_pad L pbs off rs rp r0 b _ _ hp]
    rcases List.mem_cons.mp hr with he | hin
    · subst he
      exact absurd hp (by simp [hrp])
    · rcases List.mem_cons.mp hin with he2 | hin2
      · subst he2
        apply List.mem_append_left
        simp [payloadFor, hrd, hnz, logpack_submit_bio_wrapper]
      · exact List.mem_append_right _ (ih r hin2 hrp hrd)

/-- C7 (confirmed): for a non-zero-flush pack the log submitter issues the
header block at `logpack_lsid % ring_buffer_pb + ring_buffer_off`; every
non-padding, non-discard record's payload IS submitted, at
`lsid % ring_buffer_pb + ring_buffer_off` where
`lsid = logpack_lsid + lsid_local` is the record's own lsid; and conversely
every payload write the submitter issues is one of those. -/
theorem C7_ring_positions (pbs off rs : Nat) (pk : WPack)
    (hz : pk.isZeroFlushOnly = false)
    (hm : RecsMatch pk.lhead.records pk.biows) :
    ∃ ops, submit_logpack_list pbs off rs [pk] =
      LdevOp.headerWrite (pk.lhead.logpackLsid % rs + off) pk.isFlushHeader ::
        ops ∧
      (∀ r ∈ pk.lhead.records, r.isPadding = false → r.isDiscard = false →
        LdevOp.payloadWrite ((pk.lhead.logpackLsid + r.lsidLocal) % rs + off)
          (capacity_pb pbs r.ioSize) ∈ ops) ∧
      ∀ op ∈ ops, ∃ r, r ∈ pk.lhead.records ∧ r.isPadding = false ∧
        r.isDiscard = false ∧
        op = LdevOp.payloadWrite ((pk.lhead.logpackLsid + r.lsidLocal) % rs +
          off) (capacity_pb pbs r.ioSize) := by
  refine ⟨submit_logpack_payloads pk.lhead.logpackLsid pbs off rs
    pk.lhead.records pk.biows, ?_, ?_, ?_⟩
  · simp [submit_logpack_list, hz, submit_logpack, logpack_submit_header]
  · exact fun r hr h1 h2 =>
      payloads_complete pbs off rs pk.lhead.logpackLsid hm r hr h1 h2
  · exact fun op hop => payloads_mem pbs off rs pk.lhead.logpackLsid hm op hop

theorem C7_ring_positions_witness :
    pkC7.isZeroFlushOnly = false ∧
    (∃ ops, submit_logpack_list 512 2 1000 [pkC7] =
      LdevOp.headerWrite (pkC7.lhead.logpackLsid % 1000 + 2)
        pkC7.isFlushHeader :: ops ∧
      (∀ r ∈ pkC7.lhead.records, r.isPadding = false → r.isDiscard = false →
        LdevOp.payloadWrite ((pkC7.lhead.logpackLsid + r.lsidLocal) % 1000 +
          2) (capacity_pb 512 r.ioSize) ∈ ops) ∧
      ∀ op ∈ ops, ∃ r, r ∈ pkC7.lhead.records ∧ r.isPadding = false ∧
        r.isDiscard = false ∧
        op = LdevOp.payloadWrite ((pkC7.lhead.logpackLsid + r.lsidLocal) %
          1000 + 2) (capacity_pb 512 r.ioSize)) :=
  ⟨rfl, C7_ring_positions 512 2 1000 pkC7 rfl
    (RecsMatch.cons _ _ rfl rfl rfl (by decide) RecsMatch.nil)⟩

/-- C8 (corrected): when the ring buffer overflows with
`is_error_before_overflow` unset, the LOG_OVERFLOW bit is set and the
configured userland hook runs only on the first transition (it is skipped
when the bit was already set); but the hook receives THREE arguments after
the executable path — major id, minor id and the event string — so argv is
`[exec_path, major, minor, "overflow"]`, not the claimed two-argument form
`exec_path minor_id event`. -/
theorem C8_overflow_hook (cfg : DevConfig) (maxLen : Nat) (path : String)
    (major minor latest oldest : Nat) (flag : Bool)
    (hover : latest - oldest > cfg.ringBufferPb)
    (hpath : path.length ≠ 0) (hlt : path.length < maxLen) :
    (flag = false →
      check_overflow_and_invoke cfg maxLen path major minor latest oldest
        flag = (true, some [path, toString major, toString minor,
          "overflow"])) ∧
    (flag = true →
      check_overflow_and_invoke cfg maxLen path major minor latest oldest
        flag = (true, none)) := by
  have hmin : min path.length maxLen = path.length :=
    Nat.min_eq_left (le_of_lt hlt)
  have hcond : ¬(min path.length maxLen = 0 ∨
      min path.length maxLen = maxLen) := by
    rw [hmin]
    push_neg
    exact ⟨hpath, by omega⟩
  constructor
  · intro hf
    simp [check_overflow_and_invoke, invoke_userland_exec, hover, hf, hcond]
    omega
  · intro hf
    simp [check_overflow_and_invoke, hover, hf]

theorem C8_overflow_hook_witness :
    (10 : Nat) - 0 > cfgErr.ringBufferPb ∧
    ("/hook" : String).length ≠ 0 ∧ ("/hook" : String).length < 16 ∧
    ((false = false →
      check_overflow_and_invoke cfgErr 16 "/hook" 8 3 10 0 false =
        (true, some ["/hook", toString 8, toString 3, "overflow"])) ∧
     (false = true →
      check_overflow_and_invoke cfgErr 16 "/hook" 8 3 10 0 false =
        (true, none))) :=
  ⟨by decide, by decide, by decide,
    C8_overflow_hook cfgErr 16 "/hook" 8 3 10 0 false (by decide) (by decide)
      (by decide)⟩

/-- C8 counterexample: on the first overflow transition with a configured
hook the helper argv is the four strings
`[path, major, minor, "overflow"]`, which differs from the claimed
three-string invocation `[path, minor, "overflow"]`. -/
theorem C8_three_args_counterexample :
    check_overflow_and_invoke cfgErr 16 "/hook" 8 3 10 0 false =
      (true, some ["/hook", "8", "3", "overflow"]) ∧
    (some ["/hook", "8", "3", "overflow"] : Option (List String)) ≠
      some ["/hook", "3", "overflow"] := by
  constructor
  · decide
  · decide

/-- C9 (confirmed): `hashtbl_add` returns -EINVAL (-22) when the key pointer
is NULL, the key size is 0 or the value is `HASHTBL_INVALID_VAL`; -EPERM (-1)
when an entry with an equal key already exists; -ENOMEM (-12) when cell
allocation fails; 0 otherwise; every non-zero return leaves the table
unchanged, and after a 0 return `hashtbl_lookup` of the key yields the
value. -/
theorem C9_hashtbl_add (t : hash_tbl) (keyPtr : Option (List Nat)) (val : Nat)
    (af : Bool) :
    ((keyPtr = none ∨ ∃ k, keyPtr = some k ∧
        (k.length = 0 ∨ val = HASHTBL_INVALID_VAL)) →
      hashtbl_add t keyPtr val af = (-22, t)) ∧
    (∀ k, keyPtr = some k → k.length ≠ 0 → val ≠ HASHTBL_INVALID_VAL →
      (hashtbl_lookup_cell t k).isSome = true →
      hashtbl_add t keyPtr val af = (-1, t)) ∧
    (∀ k, keyPtr = some k → k.length ≠ 0 → val ≠ HASHTBL_INVALID_VAL →
      (hashtbl_lookup_cell t k).isSome = false → af = true →
      hashtbl_add t keyPtr val af = (-12, t)) ∧
    (∀ k, keyPtr = some k → k.length ≠ 0 → val ≠ HASHTBL_INVALID_VAL →
      (hashtbl_lookup_cell t k).isSome = false → af = false →
      (hashtbl_add t keyPtr val af).1 = 0 ∧
      hashtbl_lookup (hashtbl_add t keyPtr val af).2 k = val) := by
  refine ⟨?_, ?_, ?_, ?_⟩
  · rintro (h | ⟨k, hk, hkv⟩)
    · rw [h]
      rfl
    · rw [hk]
      simp only [hashtbl_add]
      rw [if_pos hkv]
  · intro k hk hk0 hv hsome
    rw [hk]
    simp only [hashtbl_add]
    rw [if_neg (by push_neg; exact ⟨hk0, hv⟩), if_pos hsome]
  · intro k hk hk0 hv hnone haf
    rw [hk, haf]
    simp only [hashtbl_add]
    rw [if_neg (by push_neg; exact ⟨hk0, hv⟩),
      if_neg (by simp [hnone])]
    simp
  · intro k hk hk0 hv hnone haf
    rw [hk, haf]
    have hred : hashtbl_add t (some k) val false =
        (0, { t with bucket := fun i => if i = t.idx k then
          ({ key := k, val := val } : hash_cell) :: t.bucket i
          else t.bucket i }) := by
      simp only [hashtbl_add]
      rw [if_neg (by push_neg; exact ⟨hk0, hv⟩),
        if_neg (by simp [hnone]), if_neg (by decide : ¬(false = true))]
    rw [hred]
    refine ⟨rfl, ?_⟩
    simp [hashtbl_lookup, hashtbl_lookup_cell]

theorem C9_hashtbl_add_witness :
    ([1, 2] : List Nat).length ≠ 0 ∧ (7 : Nat) ≠ HASHTBL_INVALID_VAL ∧
    (hashtbl_lookup_cell tblW [1, 2]).isSome = false ∧
    ((hashtbl_add tblW (some [1, 2]) 7 false).1 = 0 ∧
     hashtbl_lookup (hashtbl_add tblW (some [1, 2]) 7 false).2 [1, 2] = 7) :=
  ⟨by decide, by decide, rfl,
    (C9_hashtbl_add tblW (some [1, 2]) 7 false).2.2.2 [1, 2] rfl (by decide)
      (by decide) rfl rfl⟩

/-- C10 (confirmed): `iocore_log_make_request` completes every write bio at
once with -EIO (-5) leaving the lsid state untouched, and forwards every
read bio unchanged to the underlying log device. -/
theorem C10_iocore_log_make_request (ls : LsidSet) (b : Bio) :
    iocore_log_make_request ls b =
      (ls, if b.isWrite then LogDevAction.endio (-5)
           else LogDevAction.forwardToLdev b) := by
  unfold iocore_log_make_request
  split_ifs <;> rfl

end Walb
